import Mathlib

/-!
Shallow embedding of the persistence / session layer of the Fitness-Dashboard
repository (`src/modules/database.py`, plus the plan-delete helpers in
`src/pages/workouts.py` and `src/pages/diet.py`), together with theorems
settling the specification claims about that layer.

Python strings are modelled as `String`, SQLite dynamically-typed column
values as `SqlValue` (with `REAL` columns modelled exactly as rationals),
timestamps as natural numbers (seconds), and each table as a list of row
records together with its `AUTOINCREMENT` counter.
-/

namespace FitnessDb

/-- A dynamically typed SQLite value: `NULL`, integer, real (modelled
exactly as a rational) or text.  Python `None` fed through a parameter
binding becomes `null`. -/
inductive SqlValue where
  | null
  | intV (n : Int)
  | realV (q : Rat)
  | textV (s : String)
deriving Repr, DecidableEq

/-- The lowercase hex digit for `n` (used with `n < 16`): `0`-`9`, `a`-`f`. -/
def hexDigit (n : Nat) : Char :=
  if n < 10 then Char.ofNat (48 + n) else Char.ofNat (87 + n)

/-- Stand-in for `hashlib.sha256((...).encode()).hexdigest()` — an external
library, not repository code: a deterministic digest rendered as 16 lowercase
hex characters.  No claim depends on concrete digest values, only on the
digest being a fixed deterministic function of its input whose rendering
contains no `:` separator (true of real hex digests). -/
def sha256hex (s : String) : String :=
  let h := s.data.foldl (fun a c => (a * 31 + c.toNat) % (2 ^ 64)) 5381
  String.mk ((List.range 16).map fun i => hexDigit (h / 16 ^ i % 16))

/-- `DatabaseManager.hash_password` (database.py:84-94): the random
`secrets.token_hex(16)` salt is passed in as the `salt` parameter; the stored
record is `f"{salt}:{hash}"` with `hash = sha256(password + salt)`. -/
def hash_password (salt password : String) : String :=
  salt ++ ":" ++ sha256hex (password ++ salt)

/-- Python `str.split(':')` at the character-list level. -/
def splitOnColonChars : List Char → List (List Char)
  | [] => [[]]
  | c :: cs =>
    if c = ':' then [] :: splitOnColonChars cs
    else
      match splitOnColonChars cs with
      | [] => [[c]]
      | p :: ps => (c :: p) :: ps

/-- `DatabaseManager.verify_password` (database.py:96-109): splits the stored
record on `:`; the destructuring `salt, password_hash = stored_hash.split(':')`
raises `ValueError` unless there are exactly two parts, which the
`try/except ValueError` turns into `False`. -/
def verify_password (password stored_hash : String) : Bool :=
  match (splitOnColonChars stored_hash.data).map String.mk with
  | [salt, ph] => sha256hex (password ++ salt) == ph
  | _ => false

/-- Python `dict.get(key)` on a parameter fed to SQLite: absent key → Python
`None` → SQL `NULL`.  A Python dict is modelled as an association list (first
binding wins, mirroring unique dict keys). -/
def dget (m : List (String × SqlValue)) (k : String) : SqlValue :=
  match m.find? (fun p => p.1 == k) with
  | some p => p.2
  | none => SqlValue.null

/-- Python `key in dict` + `dict[key]`: `some v` iff the key is present. -/
def dlookup (m : List (String × SqlValue)) (k : String) : Option SqlValue :=
  (m.find? (fun p => p.1 == k)).map (·.2)

/-- A SQLite table: its rows plus the `AUTOINCREMENT` counter for fresh ids
(SQLite row ids start at 1). -/
structure Table (α : Type) where
  rows : List α
  nextId : Nat
deriving Repr, DecidableEq

/-- `INSERT` returning `cursor.lastrowid`: the new row receives the next id
and the counter advances. -/
def Table.insertRow {α : Type} (t : Table α) (mk : Nat → α) : Nat × Table α :=
  (t.nextId, { rows := t.rows ++ [mk t.nextId], nextId := t.nextId + 1 })

/-- The ten profile columns of the `users` table, in the order used by both
the `INSERT` in `create_user` and the whitelist loop in
`update_user_profile` (database.py:614-616). -/
def profileFields : List String :=
  ["first_name", "last_name", "age", "gender", "height_cm",
   "weight_kg", "activity_level", "fitness_goals", "injuries",
   "experience_level"]

/-- A `users` row.  The fixed identity columns are first-class fields; the
ten profile columns (accessed dynamically by column name in
`update_user_profile`) are a column-name-indexed list. -/
structure UserRow where
  id : Nat
  username : String
  email : String
  password_hash : String
  profile : List (String × SqlValue)
deriving Repr, DecidableEq

/-- Profile-column read (`row[field]`). -/
def UserRow.getCol (u : UserRow) (f : String) : SqlValue :=
  dget u.profile f

/-- `UPDATE users SET f = v` on one row: rewrites the named column, leaves
every other column alone. -/
def UserRow.setCol (u : UserRow) (f : String) (v : SqlValue) : UserRow :=
  { u with profile := u.profile.map fun p => if p.1 = f then (p.1, v) else p }

/-- A `user_sessions` row (`user_id`, `session_token`, `expires_at`);
timestamps are seconds. -/
structure SessionRow where
  user_id : Nat
  session_token : String
  expires_at : Nat
deriving Repr, DecidableEq

/-- A `workout_plans` row. -/
structure WorkoutPlanRow where
  id : Nat
  user_id : Nat
  name : SqlValue
  description : SqlValue
  duration_weeks : SqlValue
  ai_generated : SqlValue
  gemini_prompt : SqlValue
deriving Repr, DecidableEq

/-- A `workout_days` row. -/
structure WorkoutDayRow where
  id : Nat
  workout_plan_id : Nat
  day_number : SqlValue
  day_name : SqlValue
  focus_area : SqlValue
deriving Repr, DecidableEq

/-- An `exercises` catalog row. -/
structure ExerciseRow where
  id : Nat
  name : SqlValue
  category : SqlValue
  muscle_groups : SqlValue
  equipment : SqlValue
  difficulty_level : SqlValue
  instructions : SqlValue
deriving Repr, DecidableEq

/-- A `workout_exercises` link row. -/
structure WorkoutExerciseRow where
  id : Nat
  workout_day_id : Nat
  exercise_id : Nat
  sets : SqlValue
  reps : SqlValue
  weight_kg : SqlValue
  rest_seconds : SqlValue
  notes : SqlValue
deriving Repr, DecidableEq

/-- A `workout_logs` row (`completed_date` is the calendar day of
`completed_at`). -/
structure WorkoutLogRow where
  id : Nat
  user_id : Nat
  workout_day_id : Nat
  plan_name : SqlValue
  completed_date : Nat
  duration_minutes : Rat
deriving Repr, DecidableEq

/-- An `exercise_logs` row.  `reps_completed` is modelled as the integer the
query's `CAST(... AS INTEGER)` produces. -/
structure ExerciseLogRow where
  id : Nat
  workout_log_id : Nat
  sets_completed : Int
  reps_completed : Int
  weight_used_kg : Rat
deriving Repr, DecidableEq

/-- A `diet_plans` row; `created_at` is the insertion timestamp
(`DEFAULT CURRENT_TIMESTAMP`). -/
structure DietPlanRow where
  id : Nat
  user_id : Nat
  name : SqlValue
  calorie_target : SqlValue
  protein_target_g : SqlValue
  carb_target_g : SqlValue
  fat_target_g : SqlValue
  dietary_restrictions : SqlValue
  ai_generated : SqlValue
  gemini_prompt : SqlValue
  created_at : Nat
deriving Repr, DecidableEq

/-- A `meal_plans` row. -/
structure MealPlanRow where
  id : Nat
  diet_plan_id : Nat
  day_number : SqlValue
  meal_type : SqlValue
  recipe_name : SqlValue
  ingredients : SqlValue
  instructions : SqlValue
  calories_per_serving : SqlValue
  protein_g : SqlValue
  carbs_g : SqlValue
  fat_g : SqlValue
  servings : SqlValue
deriving Repr, DecidableEq

/-- A `shopping_lists` row. -/
structure ShoppingListRow where
  id : Nat
  user_id : Nat
  diet_plan_id : Nat
  item_name : SqlValue
  quantity : SqlValue
  unit : SqlValue
  category : SqlValue
deriving Repr, DecidableEq

/-- A `meal_logs` row (`logged_date` is the calendar day of `logged_at`;
nutrition `REAL` columns are modelled exactly as rationals). -/
structure MealLogRow where
  id : Nat
  user_id : Nat
  meal_type : SqlValue
  food_items : SqlValue
  calories_consumed : Rat
  protein_g : Rat
  carbs_g : Rat
  fat_g : Rat
  logged_date : Nat
deriving Repr, DecidableEq

/-- The whole SQLite database state (the tables the modelled operations
touch). -/
structure Db where
  users : Table UserRow
  user_sessions : Table SessionRow
  workout_plans : Table WorkoutPlanRow
  workout_days : Table WorkoutDayRow
  exercises : Table ExerciseRow
  workout_exercises : Table WorkoutExerciseRow
  workout_logs : Table WorkoutLogRow
  exercise_logs : Table ExerciseLogRow
  diet_plans : Table DietPlanRow
  meal_plans : Table MealPlanRow
  shopping_lists : Table ShoppingListRow
  meal_logs : Table MealLogRow
deriving Repr, DecidableEq

/-- `DatabaseManager.create_user` (database.py:111-166): duplicate check
`SELECT id FROM users WHERE username = ? OR email = ?` returns `None`
(Conflict) if a row matches; otherwise the row is inserted with the salted
password hash.  The random salt of `hash_password` is the `salt`
parameter; `user_data = user_data or {}` is the association list. -/
def create_user (db : Db) (username email password : String)
    (user_data : List (String × SqlValue)) (salt : String) : Option Nat × Db :=
  if db.users.rows.any (fun u => u.username == username || u.email == email) then
    (none, db)
  else
    let ph := hash_password salt password
    let ins := db.users.insertRow fun i =>
      { id := i, username := username, email := email, password_hash := ph,
        profile := profileFields.map fun f => (f, dget user_data f) }
    (some ins.1, { db with users := ins.2 })

/-- `DatabaseManager.authenticate_user` (database.py:168-195):
`SELECT * FROM users WHERE username = ? OR email = ?` binding the one
identifier to both columns, then `verify_password`; both "no such user" and
"wrong password" return `None`.  `fetchone` is modelled as the first
matching row. -/
def authenticate_user (db : Db) (username password : String) : Option UserRow :=
  match db.users.rows.find? (fun u => u.username == username || u.email == username) with
  | some u => if verify_password password u.password_hash then some u else none
  | none => none

/-- `DatabaseManager.create_session` (database.py:197-222): inserts the
random `secrets.token_urlsafe(32)` token (passed in as `token`) with
`expires_at = now + duration_hours` (seconds).  Modelled from the spec for
the schema file (not under src/): `session_token` is `UNIQUE`, so an
insert colliding with an existing token raises and the method returns
`None`. -/
def create_session (db : Db) (user_id : Nat) (token : String) (now : Nat)
    (duration_hours : Nat) : Option String × Db :=
  if db.user_sessions.rows.any (fun s => s.session_token == token) then
    (none, db)
  else
    let expires := now + duration_hours * 3600
    (some token,
     { db with user_sessions :=
        { rows := db.user_sessions.rows ++ [⟨user_id, token, expires⟩],
          nextId := db.user_sessions.nextId + 1 } })

/-- `DatabaseManager.validate_session` (database.py:224-248):
`SELECT u.* FROM users u JOIN user_sessions s ON u.id = s.user_id WHERE
s.session_token = ? AND s.expires_at > ?` with the current time; `None`
when nothing matches. -/
def validate_session (db : Db) (token : String) (now : Nat) : Option UserRow :=
  match db.user_sessions.rows.find?
      (fun s => s.session_token == token && decide (now < s.expires_at)) with
  | some s => db.users.rows.find? (fun u => u.id == s.user_id)
  | none => none

/-- `DatabaseManager.update_user_profile` (database.py:604-630): collects
`field = ?` assignments for exactly the whitelisted fields present in
`profile_data` (in whitelist order), applies them to the row with the given
id, and returns `False` without touching anything when no field matched. -/
def update_user_profile (db : Db) (user_id : Nat)
    (profile_data : List (String × SqlValue)) : Bool × Db :=
  let updates := profileFields.filterMap fun f => (dlookup profile_data f).map fun v => (f, v)
  if updates.isEmpty then (false, db)
  else
    (true,
     { db with users :=
        { db.users with rows := db.users.rows.map fun u =>
            if u.id == user_id then updates.foldl (fun r fv => r.setCol fv.1 fv.2) u
            else u } })

/-- The ids of a workout plan's day rows
(`SELECT id FROM workout_days WHERE workout_plan_id = ?`). -/
def planDayIds (db : Db) (plan_id : Nat) : List Nat :=
  (db.workout_days.rows.filter (fun d => d.workout_plan_id == plan_id)).map (·.id)

/-- The ids of the workout logs attached to a plan's days
(`SELECT id FROM workout_logs WHERE workout_day_id IN (...)`). -/
def planLogIds (db : Db) (plan_id : Nat) : List Nat :=
  (db.workout_logs.rows.filter
    (fun wl => (planDayIds db plan_id).contains wl.workout_day_id)).map (·.id)

/-- `delete_workout_plan` (src/pages/workouts.py:474-491): five `DELETE`
statements run in order inside one connection block and committed together;
each statement's subselect is evaluated against the state left by the
earlier statements (the `workout_days` subselect is unchanged until the
days themselves are deleted in statement four). -/
def delete_workout_plan (db : Db) (plan_id : Nat) : Bool × Db :=
  let db1 := { db with exercise_logs := { rows := db.exercise_logs.rows.filter (fun el => !((planLogIds db plan_id).contains el.workout_log_id)), nextId := db.exercise_logs.nextId } }
  let db2 := { db1 with workout_logs := { rows := db1.workout_logs.rows.filter (fun wl => !((planDayIds db1 plan_id).contains wl.workout_day_id)), nextId := db1.workout_logs.nextId } }
  let db3 := { db2 with workout_exercises := { rows := db2.workout_exercises.rows.filter (fun w => !((planDayIds db2 plan_id).contains w.workout_day_id)), nextId := db2.workout_exercises.nextId } }
  let db4 := { db3 with workout_days := { rows := db3.workout_days.rows.filter (fun d => !(d.workout_plan_id == plan_id)), nextId := db3.workout_days.nextId } }
  let db5 := { db4 with workout_plans := { rows := db4.workout_plans.rows.filter (fun p => !(p.id == plan_id)), nextId := db4.workout_plans.nextId } }
  (true, db5)

/-- `delete_diet_plan` (src/pages/diet.py:457-471): meals, then shopping
list items, then the plan row, committed together. -/
def delete_diet_plan (db : Db) (plan_id : Nat) : Bool × Db :=
  let db1 := { db with meal_plans := { rows := db.meal_plans.rows.filter (fun m => !(m.diet_plan_id == plan_id)), nextId := db.meal_plans.nextId } }
  let db2 := { db1 with shopping_lists := { rows := db1.shopping_lists.rows.filter (fun s => !(s.diet_plan_id == plan_id)), nextId := db1.shopping_lists.nextId } }
  let db3 := { db2 with diet_plans := { rows := db2.diet_plans.rows.filter (fun p => !(p.id == plan_id)), nextId := db2.diet_plans.nextId } }
  (true, db3)

/-- The `days_map.get(date_range, 30)` lookup shared by
`get_nutrition_logs` (database.py:487-495) and `get_workout_history`
(database.py:538-546): six recognised labels, anything else falls back to
30 days. -/
def rangeDays (date_range : String) : Nat :=
  if date_range = "1 Week" then 7
  else if date_range = "2 Weeks" then 14
  else if date_range = "1 Month" then 30
  else if date_range = "3 Months" then 90
  else if date_range = "6 Months" then 180
  else if date_range = "1 Year" then 365
  else 30

/-- Insert a date into an ascending duplicate-free date list (the set of
`GROUP BY DATE(...)` keys, `ORDER BY ... ASC`). -/
def insertAscDedup (d : Nat) : List Nat → List Nat
  | [] => [d]
  | x :: xs =>
    if d < x then d :: x :: xs
    else if d = x then x :: xs
    else x :: insertAscDedup d xs

/-- The distinct dates of a list, ascending. -/
def groupDatesAsc (ds : List Nat) : List Nat :=
  ds.foldl (fun acc d => insertAscDedup d acc) []

/-- The meal logs of a user inside the trailing window
(`WHERE ml.user_id = ? AND DATE(ml.logged_at) >= ?`). -/
def userLogsInWindow (db : Db) (uid : Nat) (start : Nat) : List MealLogRow :=
  db.meal_logs.rows.filter
    (fun l => l.user_id == uid && decide (start ≤ l.logged_date))

/-- One aggregated row of the daily nutrition query. -/
structure NutritionDayRow where
  date : Nat
  calories : Rat
  protein : Rat
  carbs : Rat
  fats : Rat
deriving Repr, DecidableEq

/-- The result of `get_nutrition_logs`: the aggregated frame, plus the
`target_calories` column when it is attached. -/
structure NutritionResult where
  rows : List NutritionDayRow
  target_calories : Option SqlValue
deriving Repr, DecidableEq

/-- `SELECT calorie_target FROM diet_plans WHERE user_id = ? ORDER BY
created_at DESC LIMIT 1`: the user's most recently created diet plan
(earlier row kept on a timestamp tie). -/
def mostRecentDietPlan (db : Db) (uid : Nat) : Option DietPlanRow :=
  (db.diet_plans.rows.filter (fun p => p.user_id == uid)).foldl
    (fun acc p =>
      match acc with
      | none => some p
      | some q => if q.created_at < p.created_at then some p else some q)
    none

/-- `get_nutrition_logs` after the window has been resolved to a day
count: groups the user's meal logs in the trailing window by calendar day,
sums calories and macros per day, and attaches the most recent diet plan's
calorie target when the frame is non-empty and the target is non-`NULL`
(database.py:497-530). -/
def nutritionLogsWithDays (db : Db) (uid days now : Nat) : NutritionResult :=
  let start := now - days
  let logs := userLogsInWindow db uid start
  let dates := groupDatesAsc (logs.map (·.logged_date))
  let rows := dates.map fun d =>
    let dayLogs := logs.filter (fun l => l.logged_date == d)
    { date := d,
      calories := (dayLogs.map (·.calories_consumed)).sum,
      protein := (dayLogs.map (·.protein_g)).sum,
      carbs := (dayLogs.map (·.carbs_g)).sum,
      fats := (dayLogs.map (·.fat_g)).sum : NutritionDayRow }
  let tc : Option SqlValue :=
    match mostRecentDietPlan db uid with
    | some p => if p.calorie_target == SqlValue.null then none else some p.calorie_target
    | none => none
  { rows := rows, target_calories := if rows.isEmpty then none else tc }

/-- `DatabaseManager.get_nutrition_logs` (database.py:485-534). -/
def get_nutrition_logs (db : Db) (uid : Nat) (date_range : String) (now : Nat) :
    NutritionResult :=
  nutritionLogsWithDays db uid (rangeDays date_range) now

/-- One aggregated row of the workout-history query. -/
structure WorkoutHistoryRow where
  date : Nat
  name : SqlValue
  day_number : SqlValue
  volume : Rat
  sessions : Nat
  duration : Rat
  completion_rate : Rat
deriving Repr, DecidableEq

/-- The join of `workout_logs`, `exercise_logs` and `workout_days` for one
user inside the window (database.py:551-566). -/
def workoutJoin (db : Db) (uid start : Nat) :
    List (WorkoutLogRow × ExerciseLogRow × WorkoutDayRow) :=
  (db.workout_logs.rows.filter
    (fun wl => wl.user_id == uid && decide (start ≤ wl.completed_date))).flatMap fun wl =>
    (db.exercise_logs.rows.filter (fun el => el.workout_log_id == wl.id)).flatMap fun el =>
      (db.workout_days.rows.filter (fun wd => wd.id == wl.workout_day_id)).map fun wd =>
        (wl, el, wd)

/-- Stable insertion by date into the list of group keys
(`ORDER BY DATE(wl.completed_at) ASC`; within a date the order is the
model's determinization of an order SQLite leaves unspecified). -/
def insertByDate (x : Nat × SqlValue × SqlValue) :
    List (Nat × SqlValue × SqlValue) → List (Nat × SqlValue × SqlValue)
  | [] => [x]
  | y :: ys => if x.1 < y.1 then x :: y :: ys else y :: insertByDate x ys

/-- Sort group keys ascending by date. -/
def sortKeysByDate (ks : List (Nat × SqlValue × SqlValue)) :
    List (Nat × SqlValue × SqlValue) :=
  ks.foldr insertByDate []

/-- `get_workout_history` after the window has been resolved:
`GROUP BY DATE(completed_at), plan_name, day_number`, with total volume
`SUM(sets * CAST(reps AS INTEGER) * weight)`, `COUNT(DISTINCT wl.id)`
sessions, `AVG(duration_minutes)` over the joined rows, and a constant
completion rate of 1. -/
def workoutHistoryWithDays (db : Db) (uid days now : Nat) : List WorkoutHistoryRow :=
  let start := now - days
  let rows := workoutJoin db uid start
  let keys := sortKeysByDate
    ((rows.map fun r => (r.1.completed_date, r.1.plan_name, r.2.2.day_number)).dedup)
  keys.map fun k =>
    let grp := rows.filter fun r =>
      decide ((r.1.completed_date, r.1.plan_name, r.2.2.day_number) = k)
    { date := k.1, name := k.2.1, day_number := k.2.2,
      volume := (grp.map fun r =>
        ((r.2.1.sets_completed * r.2.1.reps_completed : Int) : Rat) * r.2.1.weight_used_kg).sum,
      sessions := ((grp.map fun r => r.1.id).dedup).length,
      duration := (grp.map fun r => r.1.duration_minutes).sum / (grp.length : Rat),
      completion_rate := 1 }

/-- `DatabaseManager.get_workout_history` (database.py:536-570). -/
def get_workout_history (db : Db) (uid : Nat) (date_range : String) (now : Nat) :
    List WorkoutHistoryRow :=
  workoutHistoryWithDays db uid (rangeDays date_range) now

/-- An empty table (SQLite row ids start at 1). -/
def table0 {α : Type} : Table α :=
  { rows := [], nextId := 1 }

/-- A freshly created, empty database. -/
def emptyDb : Db :=
  { users := table0, user_sessions := table0, workout_plans := table0,
    workout_days := table0, exercises := table0, workout_exercises := table0,
    workout_logs := table0, exercise_logs := table0, diet_plans := table0,
    meal_plans := table0, shopping_lists := table0, meal_logs := table0 }

/-- A concrete user row used to evaluate the theorems on explicit inputs. -/
def demoUserAlice : UserRow :=
  { id := 1, username := "alice", email := "a@x.com",
    password_hash := hash_password "0abc" "secret1",
    profile := profileFields.map fun f =>
      (f, if f = "fitness_goals" then SqlValue.textV "strength" else SqlValue.null) }

/-- A database holding just the user `alice`. -/
def demoDbAlice : Db :=
  { emptyDb with users := { rows := [demoUserAlice], nextId := 2 } }

/-- Python `dict.get(key)` on a payload field: `none` is an absent key,
which `.get` turns into `None` → SQL `NULL`. -/
def pget (o : Option SqlValue) : SqlValue :=
  o.getD SqlValue.null

/-- One exercise dict inside a day of a workout-plan payload. -/
structure ExercisePayload where
  name : Option SqlValue
  category : Option SqlValue
  muscle_groups : Option SqlValue
  equipment : Option SqlValue
  difficulty_level : Option SqlValue
  instructions : Option SqlValue
  sets : Option SqlValue
  reps : Option SqlValue
  weight_kg : Option SqlValue
  rest_seconds : Option SqlValue
  notes : Option SqlValue
deriving Repr, DecidableEq

/-- One day dict of a workout-plan payload (`day_data.get('exercises', [])`
defaults to the empty list). -/
structure DayPayload where
  day_number : Option SqlValue
  day_name : Option SqlValue
  focus_area : Option SqlValue
  exercises : Option (List ExercisePayload)
deriving Repr, DecidableEq

/-- A workout-plan payload (`plan_data.get('ai_generated', True)` defaults
to SQLite 1, `plan_data.get('days', [])` to the empty list). -/
structure WorkoutPlanPayload where
  name : Option SqlValue
  description : Option SqlValue
  duration_weeks : Option SqlValue
  ai_generated : Option SqlValue
  gemini_prompt : Option SqlValue
  days : Option (List DayPayload)
deriving Repr, DecidableEq

/-- One meal dict of a diet payload (`meal_data.get('servings', 1)`
defaults to 1). -/
structure MealPayload where
  day_number : Option SqlValue
  meal_type : Option SqlValue
  recipe_name : Option SqlValue
  ingredients : Option SqlValue
  instructions : Option SqlValue
  calories_per_serving : Option SqlValue
  protein_g : Option SqlValue
  carbs_g : Option SqlValue
  fat_g : Option SqlValue
  servings : Option SqlValue
deriving Repr, DecidableEq

/-- One shopping-list item dict of a diet payload. -/
structure ShoppingItemPayload where
  item_name : Option SqlValue
  quantity : Option SqlValue
  unit : Option SqlValue
  category : Option SqlValue
deriving Repr, DecidableEq

/-- A diet-plan payload. -/
structure DietPlanPayload where
  name : Option SqlValue
  calorie_target : Option SqlValue
  protein_target_g : Option SqlValue
  carb_target_g : Option SqlValue
  fat_target_g : Option SqlValue
  dietary_restrictions : Option SqlValue
  ai_generated : Option SqlValue
  gemini_prompt : Option SqlValue
  meals : Option (List MealPayload)
  shopping_list : Option (List ShoppingItemPayload)
deriving Repr, DecidableEq

/-- `INSERT OR IGNORE INTO exercises ...` (database.py:295-306).  Modelled
from the spec for the schema file (not under src/): the Exercise catalog is
"a de-duplicated catalog entity identified by name", i.e. `name` is
`UNIQUE NOT NULL`, so the insert is ignored when the payload name is
`NULL` or when a row with that name already exists. -/
def insertOrIgnoreExercise (db : Db) (ex : ExercisePayload) : Db :=
  if pget ex.name == SqlValue.null
      || db.exercises.rows.any (fun e => e.name == pget ex.name) then db
  else { db with exercises := (db.exercises.insertRow fun i => { id := i, name := pget ex.name, category := pget ex.category, muscle_groups := pget ex.muscle_groups, equipment := pget ex.equipment, difficulty_level := pget ex.difficulty_level, instructions := pget ex.instructions }).2 }

/-- The state after one full exercise iteration: the catalog upsert
followed by the link-row insert referencing the fetched row's id. -/
def exerciseStepDb (db : Db) (ex : ExercisePayload) (erow : ExerciseRow)
    (day_id : Nat) : Db :=
  { insertOrIgnoreExercise db ex with workout_exercises := ((insertOrIgnoreExercise db ex).workout_exercises.insertRow fun i => { id := i, workout_day_id := day_id, exercise_id := erow.id, sets := pget ex.sets, reps := pget ex.reps, weight_kg := pget ex.weight_kg, rest_seconds := pget ex.rest_seconds, notes := pget ex.notes }).2 }

/-- The per-exercise body of `save_workout_plan`'s inner loop
(database.py:293-325): upsert into the catalog, `SELECT id FROM exercises
WHERE name = ?` (no row matches a `NULL` name, and `fetchone()['id']` on no
row raises, aborting the transaction), then the link-row insert.  `fails`
is the statement-failure oracle: `fails k` means the `k`-th `INSERT` of
the whole save raises, and the pending transaction is rolled back by the
connection context manager. -/
def saveExercisesLoop (fails : Nat → Bool) (day_id : Nat) :
    List ExercisePayload → Db → Nat → Except Unit (Db × Nat)
  | [], db, k => Except.ok (db, k)
  | ex :: rest, db, k =>
    if fails k then Except.error () else
    match (insertOrIgnoreExercise db ex).exercises.rows.find?
        (fun e => !(pget ex.name == SqlValue.null) && e.name == pget ex.name) with
    | none => Except.error ()
    | some erow =>
      if fails (k + 1) then Except.error () else
      saveExercisesLoop fails day_id rest (exerciseStepDb db ex erow day_id) (k + 2)

/-- The per-day body of `save_workout_plan`'s outer loop
(database.py:280-291): insert the day row, remember `lastrowid`, then
process the day's exercises. -/
def saveDaysLoop (fails : Nat → Bool) (plan_id : Nat) :
    List DayPayload → Db → Nat → Except Unit (Db × Nat)
  | [], db, k => Except.ok (db, k)
  | day :: rest, db, k =>
    if fails k then Except.error () else
    match saveExercisesLoop fails db.workout_days.nextId (day.exercises.getD [])
        { db with workout_days := (db.workout_days.insertRow fun i => { id := i, workout_plan_id := plan_id, day_number := pget day.day_number, day_name := pget day.day_name, focus_area := pget day.focus_area }).2 } (k + 1) with
    | Except.error e => Except.error e
    | Except.ok (db2, k2) => saveDaysLoop fails plan_id rest db2 k2

/-- `DatabaseManager.save_workout_plan` (database.py:250-332): one plan
row, then days and exercises, all inside one `with` connection block —
commit on success, rollback plus `return None` when any statement
raises. -/
def save_workout_plan (db : Db) (user_id : Nat) (plan : WorkoutPlanPayload)
    (fails : Nat → Bool) : Option Nat × Db :=
  if fails 0 then (none, db) else
  match saveDaysLoop fails db.workout_plans.nextId (plan.days.getD [])
      { db with workout_plans := (db.workout_plans.insertRow fun i => { id := i, user_id := user_id, name := pget plan.name, description := pget plan.description, duration_weeks := pget plan.duration_weeks, ai_generated := plan.ai_generated.getD (SqlValue.intV 1), gemini_prompt := pget plan.gemini_prompt }).2 } 1 with
  | Except.error _ => (none, db)
  | Except.ok (db2, _) => (some db.workout_plans.nextId, db2)

/-- The meal loop of `save_diet_plan` (database.py:368-387). -/
def saveMealsLoop (fails : Nat → Bool) (plan_id : Nat) :
    List MealPayload → Db → Nat → Except Unit (Db × Nat)
  | [], db, k => Except.ok (db, k)
  | m :: rest, db, k =>
    if fails k then Except.error () else
    saveMealsLoop fails plan_id rest
      { db with meal_plans := (db.meal_plans.insertRow fun i => { id := i, diet_plan_id := plan_id, day_number := pget m.day_number, meal_type := pget m.meal_type, recipe_name := pget m.recipe_name, ingredients := pget m.ingredients, instructions := pget m.instructions, calories_per_serving := pget m.calories_per_serving, protein_g := pget m.protein_g, carbs_g := pget m.carbs_g, fat_g := pget m.fat_g, servings := m.servings.getD (SqlValue.intV 1) }).2 }
      (k + 1)

/-- The shopping-list loop of `save_diet_plan` (database.py:389-402). -/
def saveShoppingLoop (fails : Nat → Bool) (user_id plan_id : Nat) :
    List ShoppingItemPayload → Db → Nat → Except Unit (Db × Nat)
  | [], db, k => Except.ok (db, k)
  | it :: rest, db, k =>
    if fails k then Except.error () else
    saveShoppingLoop fails user_id plan_id rest
      { db with shopping_lists := (db.shopping_lists.insertRow fun i => { id := i, user_id := user_id, diet_plan_id := plan_id, item_name := pget it.item_name, quantity := pget it.quantity, unit := pget it.unit, category := pget it.category }).2 }
      (k + 1)

/-- `DatabaseManager.save_diet_plan` (database.py:334-409): one plan row
(`created_at` defaults to the current timestamp `now`), then meals, then
shopping-list items, all in one transaction with rollback plus
`return None` on any failure. -/
def save_diet_plan (db : Db) (user_id : Nat) (diet : DietPlanPayload) (now : Nat)
    (fails : Nat → Bool) : Option Nat × Db :=
  if fails 0 then (none, db) else
  match saveMealsLoop fails db.diet_plans.nextId (diet.meals.getD [])
      { db with diet_plans := (db.diet_plans.insertRow fun i => { id := i, user_id := user_id, name := pget diet.name, calorie_target := pget diet.calorie_target, protein_target_g := pget diet.protein_target_g, carb_target_g := pget diet.carb_target_g, fat_target_g := pget diet.fat_target_g, dietary_restrictions := pget diet.dietary_restrictions, ai_generated := diet.ai_generated.getD (SqlValue.intV 1), gemini_prompt := pget diet.gemini_prompt, created_at := now }).2 } 1 with
  | Except.error _ => (none, db)
  | Except.ok (db2, k2) =>
    match saveShoppingLoop fails user_id db.diet_plans.nextId
        (diet.shopping_list.getD []) db2 k2 with
    | Except.error _ => (none, db)
    | Except.ok (db3, _) => (some db.diet_plans.nextId, db3)

/-- The number of catalog rows carrying a given name
(`SELECT ... FROM exercises WHERE name = v`). -/
def puCount (db : Db) (v : SqlValue) : Nat :=
  db.exercises.rows.countP (fun e => e.name == v)

/-- The number of link rows referencing a given catalog id. -/
def linkCount (db : Db) (i : Nat) : Nat :=
  db.workout_exercises.rows.countP (fun w => w.exercise_id == i)

/-- The number of payload exercises carrying a given name. -/
def exCountIn (v : SqlValue) (es : List ExercisePayload) : Nat :=
  es.countP (fun ex => pget ex.name == v)

/-- The structural invariants of the exercise catalog and its links: row
ids are below the `AUTOINCREMENT` counter and pairwise distinct, and every
link's `exercise_id` was allocated by the catalog counter. -/
def CatalogInv (db : Db) : Prop :=
  (∀ e ∈ db.exercises.rows, e.id < db.exercises.nextId)
  ∧ db.exercises.rows.Pairwise (fun a b => a.id ≠ b.id)
  ∧ (∀ w ∈ db.workout_exercises.rows, w.exercise_id < db.exercises.nextId)

/-- A concrete "Push-ups" exercise payload. -/
def demoExPushups : ExercisePayload :=
  { name := some (SqlValue.textV "Push-ups"), category := some (SqlValue.textV "strength"),
    muscle_groups := some (SqlValue.textV "chest"), equipment := none,
    difficulty_level := none, instructions := none, sets := some (SqlValue.intV 3),
    reps := some (SqlValue.textV "10"), weight_kg := none,
    rest_seconds := some (SqlValue.intV 60), notes := none }

/-- A concrete second exercise payload with a different name. -/
def demoExSquats : ExercisePayload :=
  { name := some (SqlValue.textV "Squats"), category := some (SqlValue.textV "strength"),
    muscle_groups := some (SqlValue.textV "legs"), equipment := none,
    difficulty_level := none, instructions := none, sets := some (SqlValue.intV 5),
    reps := some (SqlValue.textV "5"), weight_kg := some (SqlValue.realV 60),
    rest_seconds := some (SqlValue.intV 120), notes := none }

/-- Day one of the demo workout payload (Push-ups and Squats). -/
def demoDay1 : DayPayload :=
  { day_number := some (SqlValue.intV 1), day_name := some (SqlValue.textV "Push day"),
    focus_area := some (SqlValue.textV "chest"),
    exercises := some [demoExPushups, demoExSquats] }

/-- Day two of the demo workout payload (Push-ups again). -/
def demoDay2 : DayPayload :=
  { day_number := some (SqlValue.intV 2), day_name := some (SqlValue.textV "Pull day"),
    focus_area := some (SqlValue.textV "back"),
    exercises := some [demoExPushups] }

/-- A demo workout-plan payload with two days that both contain
"Push-ups". -/
def demoWorkoutPlan : WorkoutPlanPayload :=
  { name := some (SqlValue.textV "PPL"), description := none,
    duration_weeks := some (SqlValue.intV 4), ai_generated := none,
    gemini_prompt := none, days := some [demoDay1, demoDay2] }

/-- A demo meal payload. -/
def demoMeal : MealPayload :=
  { day_number := some (SqlValue.intV 1), meal_type := some (SqlValue.textV "breakfast"),
    recipe_name := some (SqlValue.textV "oats"), ingredients := none,
    instructions := none, calories_per_serving := some (SqlValue.intV 400),
    protein_g := none, carbs_g := none, fat_g := none, servings := none }

/-- A demo shopping-list item payload. -/
def demoItem : ShoppingItemPayload :=
  { item_name := some (SqlValue.textV "oats"), quantity := some (SqlValue.intV 1),
    unit := some (SqlValue.textV "kg"), category := some (SqlValue.textV "grains") }

/-- A demo diet-plan payload. -/
def demoDietPayload : DietPlanPayload :=
  { name := some (SqlValue.textV "cut"), calorie_target := some (SqlValue.intV 2000),
    protein_target_g := none, carb_target_g := none, fat_target_g := none,
    dietary_restrictions := none, ai_generated := none, gemini_prompt := none,
    meals := some [demoMeal], shopping_list := some [demoItem] }

/-- The oracle under which no statement fails. -/
def noFail : Nat → Bool := fun _ => false

/-- The oracle under which the third statement of the save raises. -/
def failThird : Nat → Bool := fun k => k == 2

/-- The catalog row the demo "Push-ups" payload creates in an empty
database. -/
def demoPushupsRow : ExerciseRow :=
  { id := 1, name := SqlValue.textV "Push-ups", category := SqlValue.textV "strength",
    muscle_groups := SqlValue.textV "chest", equipment := SqlValue.null,
    difficulty_level := SqlValue.null, instructions := SqlValue.null }

/-- A concrete meal log used to evaluate the theorems on explicit inputs. -/
def demoLog1 : MealLogRow :=
  { id := 1, user_id := 1, meal_type := SqlValue.textV "lunch",
    food_items := SqlValue.textV "rice bowl", calories_consumed := 500,
    protein_g := 20, carbs_g := 60, fat_g := 10, logged_date := 5 }

/-- A second concrete meal log on the same calendar day. -/
def demoLog2 : MealLogRow :=
  { id := 2, user_id := 1, meal_type := SqlValue.textV "dinner",
    food_items := SqlValue.textV "pasta", calories_consumed := 600,
    protein_g := 30, carbs_g := 70, fat_g := 15, logged_date := 5 }

/-- A concrete diet plan supplying the calorie target. -/
def demoDietPlan : DietPlanRow :=
  { id := 1, user_id := 1, name := SqlValue.textV "cut",
    calorie_target := SqlValue.intV 2000, protein_target_g := SqlValue.null,
    carb_target_g := SqlValue.null, fat_target_g := SqlValue.null,
    dietary_restrictions := SqlValue.null, ai_generated := SqlValue.intV 1,
    gemini_prompt := SqlValue.null, created_at := 3 }

/-- A database with two same-day meal logs and one diet plan. -/
def demoDbLogs : Db :=
  { emptyDb with
    meal_logs := { rows := [demoLog1, demoLog2], nextId := 3 },
    diet_plans := { rows := [demoDietPlan], nextId := 2 } }

theorem hexDigit_ne_colon {n : Nat} (h : n < 16) : hexDigit n ≠ ':' := by
  interval_cases n <;> decide

theorem sha256hex_no_colon (s : String) : ∀ c ∈ (sha256hex s).data, c ≠ ':' := by
  intro c hc
  simp only [sha256hex, String.mk, List.mem_map, List.mem_range] at hc
  obtain ⟨i, _, rfl⟩ := hc
  exact hexDigit_ne_colon (Nat.mod_lt _ (by norm_num))

theorem splitOnColonChars_ne_nil (l : List Char) : splitOnColonChars l ≠ [] := by
  induction l with
  | nil => simp [splitOnColonChars]
  | cons c cs ih =>
    simp only [splitOnColonChars]
    split
    · simp
    · cases h : splitOnColonChars cs with
      | nil => simp
      | cons p ps => simp

theorem splitOnColonChars_no_colon (l : List Char) (h : ∀ c ∈ l, c ≠ ':') :
    splitOnColonChars l = [l] := by
  induction l with
  | nil => rfl
  | cons c cs ih =>
    have hc : c ≠ ':' := h c (List.mem_cons_self c cs)
    have hrest : splitOnColonChars cs = [cs] :=
      ih fun x hx => h x (List.mem_cons_of_mem c hx)
    simp [splitOnColonChars, hc, hrest]

theorem splitOnColonChars_append (a b : List Char) (ha : ∀ c ∈ a, c ≠ ':') :
    splitOnColonChars (a ++ ':' :: b) = a :: splitOnColonChars b := by
  induction a with
  | nil => simp [splitOnColonChars]
  | cons c cs ih =>
    have hc : c ≠ ':' := ha c (List.mem_cons_self c cs)
    have hrest := ih fun x hx => ha x (List.mem_cons_of_mem c hx)
    simp only [List.cons_append, splitOnColonChars, hc, if_false, List.append_eq, hrest]

theorem hash_password_data (salt pw : String) :
    (hash_password salt pw).data = salt.data ++ ':' :: (sha256hex (pw ++ salt)).data := by
  simp [hash_password, String.data_append]

theorem verify_password_hash_password (salt pw : String)
    (hsalt : ∀ c ∈ salt.data, c ≠ ':') :
    verify_password pw (hash_password salt pw) = true := by
  unfold verify_password
  rw [hash_password_data, splitOnColonChars_append _ _ hsalt,
    splitOnColonChars_no_colon _ (sha256hex_no_colon _)]
  simp only [List.map_cons, List.map_nil]
  show (sha256hex (pw ++ salt) == sha256hex (pw ++ salt)) = true
  exact beq_self_eq_true _

theorem verify_password_malformed (pw stored : String)
    (h : (splitOnColonChars stored.data).length ≠ 2) :
    verify_password pw stored = false := by
  unfold verify_password
  cases hs : splitOnColonChars stored.data with
  | nil => simp
  | cons a t =>
    cases t with
    | nil => simp
    | cons b t2 =>
      cases t2 with
      | nil => rw [hs] at h; simp at h
      | cons c t3 => simp

theorem verify_password_mismatch (pw s d stored : String)
    (hstored : stored.data = s.data ++ ':' :: d.data)
    (hs : ∀ c ∈ s.data, c ≠ ':') (hd : ∀ c ∈ d.data, c ≠ ':')
    (hne : sha256hex (pw ++ s) ≠ d) :
    verify_password pw stored = false := by
  unfold verify_password
  rw [hstored, splitOnColonChars_append _ _ hs, splitOnColonChars_no_colon _ hd]
  simp only [List.map_cons, List.map_nil]
  show (sha256hex (pw ++ s) == d) = false
  exact beq_eq_false_iff_ne.mpr hne

/-- C6: for every password, `verify(password, hash(password))` is true (the
record encodes the salt together with the digest); `verify` returns false —
without raising — on any malformed record (one whose `split(':')` does not
have exactly two parts) and on any record whose digest part does not match
the digest recomputed with the stored salt. -/
theorem claim_C6_verify_hash_roundtrip_fails_closed (pw salt stored : String)
    (hsalt : ∀ c ∈ salt.data, c ≠ ':') :
    verify_password pw (hash_password salt pw) = true
    ∧ ((splitOnColonChars stored.data).length ≠ 2 → verify_password pw stored = false)
    ∧ (∀ s d : String, stored.data = s.data ++ ':' :: d.data →
        (∀ c ∈ s.data, c ≠ ':') → (∀ c ∈ d.data, c ≠ ':') →
        sha256hex (pw ++ s) ≠ d → verify_password pw stored = false) := by
  refine ⟨verify_password_hash_password salt pw hsalt, ?_, ?_⟩
  · exact verify_password_malformed pw stored
  · intro s d hrec hs hd hne
    exact verify_password_mismatch pw s d stored hrec hs hd hne

/-- Witness for C6 at concrete inputs. -/
theorem claim_C6_witness :
    verify_password "secret1" (hash_password "0a1b2c3d" "secret1") = true
    ∧ verify_password "secret1" "notavalidrecord" = false :=
  ⟨(claim_C6_verify_hash_roundtrip_fails_closed "secret1" "0a1b2c3d" "notavalidrecord"
      (by decide)).1,
   (claim_C6_verify_hash_roundtrip_fails_closed "secret1" "0a1b2c3d" "notavalidrecord"
      (by decide)).2.1 (by decide)⟩

theorem find?_append_eq_right {α : Type} (p : α → Bool) (l1 l2 : List α)
    (h : ∀ x ∈ l1, p x = false) :
    List.find? p (l1 ++ l2) = List.find? p l2 := by
  induction l1 with
  | nil => rfl
  | cons a t ih =>
    have ha := h a (List.mem_cons_self a t)
    simp only [List.cons_append, List.find?, ha]
    exact ih fun x hx => h x (List.mem_cons_of_mem a hx)

theorem find?_append_single {α : Type} (p : α → Bool) (l : List α) (x : α)
    (hold : ∀ y ∈ l, p y = false) (hx : p x = true) :
    (l ++ [x]).find? p = some x := by
  rw [find?_append_eq_right p l [x] hold]
  simp [List.find?, hx]

/-- C3: if neither the new username string nor the new email string occurs
anywhere in the identifier columns of the `users` table, `create_user`
succeeds, stores only the salted hash record of the password, and an
immediate `authenticate_user` with the same username and password returns
the new user; and whenever the username already occurs as a username or the
email as an email, `create_user` returns the Conflict result `None` instead
of raising. -/
theorem claim_C3_create_user_then_authenticate
    (db : Db) (username email password salt : String)
    (user_data : List (String × SqlValue))
    (hfresh : ∀ u ∈ db.users.rows,
      u.username ≠ username ∧ u.email ≠ username ∧ u.username ≠ email ∧ u.email ≠ email)
    (hsalt : ∀ c ∈ salt.data, c ≠ ':') :
    (∃ newRow : UserRow,
      (create_user db username email password user_data salt).1 = some db.users.nextId
      ∧ (create_user db username email password user_data salt).2.users.rows
          = db.users.rows ++ [newRow]
      ∧ newRow.username = username ∧ newRow.email = email
      ∧ newRow.password_hash = hash_password salt password
      ∧ authenticate_user (create_user db username email password user_data salt).2
          username password = some newRow)
    ∧ (∀ (db2 : Db) (un em pw : String) (ud : List (String × SqlValue)) (s2 : String),
        (∃ u ∈ db2.users.rows, u.username = un ∨ u.email = em) →
        (create_user db2 un em pw ud s2).1 = none) := by
  constructor
  · have hany : db.users.rows.any
        (fun u => u.username == username || u.email == email) = false := by
      rw [List.any_eq_false]
      intro u hu
      have h := hfresh u hu
      simp [h.1, h.2.2.2]
    obtain ⟨nr, hnr⟩ : ∃ nr : UserRow,
        nr = { id := db.users.nextId, username := username, email := email,
               password_hash := hash_password salt password,
               profile := profileFields.map fun f => (f, dget user_data f) } := ⟨_, rfl⟩
    have h2 : (create_user db username email password user_data salt).2.users.rows
        = db.users.rows ++ [nr] := by
      simp [create_user, hany, Table.insertRow, hnr]
    refine ⟨nr, ?_, h2, by rw [hnr], by rw [hnr], by rw [hnr], ?_⟩
    · simp [create_user, hany, Table.insertRow]
    · unfold authenticate_user
      rw [h2, find?_append_single _ _ _ (fun u hu => by
          have h := hfresh u hu
          simp [h.1, h.2.1]) (by simp [hnr])]
      rw [hnr]
      simp [verify_password_hash_password salt password hsalt]
  · intro db2 un em pw ud s2 hex
    obtain ⟨u, hu, hcase⟩ := hex
    have hany : db2.users.rows.any (fun u => u.username == un || u.email == em) = true := by
      rw [List.any_eq_true]
      refine ⟨u, hu, ?_⟩
      cases hcase with
      | inl h => simp [h]
      | inr h => simp [h]
    simp [create_user, hany]

/-- Witness for C3 at concrete inputs: registering `alice` into the empty
database and authenticating with the same credentials succeeds, and
re-registering the username is a Conflict. -/
theorem claim_C3_witness :
    (authenticate_user
        (create_user emptyDb "alice" "a@x.com" "secret1" [] "0abc").2
        "alice" "secret1").isSome = true
    ∧ (create_user demoDbAlice "alice" "b@y.net" "pw2" [] "11f2").1 = none := by
  have h := claim_C3_create_user_then_authenticate emptyDb "alice" "a@x.com" "secret1" "0abc"
    [] (by decide) (by decide)
  constructor
  · obtain ⟨nr, _, _, _, _, _, hauth⟩ := h.1
    rw [hauth]
    rfl
  · exact h.2 demoDbAlice "alice" "b@y.net" "pw2" [] "11f2"
      ⟨demoUserAlice, by decide, Or.inl rfl⟩

/-- C7: `authenticate_user` matches the identifier against both the
username and the email columns, and on failure returns one uniform `None`:
an identifier matching no user and a matching user with a wrong password
are indistinguishable to the caller. -/
theorem claim_C7_authenticate_uniform_failure (db : Db) (ident pw : String) :
    ((∀ u ∈ db.users.rows, u.username ≠ ident ∧ u.email ≠ ident) →
      authenticate_user db ident pw = none)
    ∧ (∀ u, db.users.rows.find?
          (fun w => w.username == ident || w.email == ident) = some u →
        (u.username = ident ∨ u.email = ident)
        ∧ (verify_password pw u.password_hash = false →
            authenticate_user db ident pw = none)
        ∧ (verify_password pw u.password_hash = true →
            authenticate_user db ident pw = some u)) := by
  constructor
  · intro h
    have hfind : db.users.rows.find?
        (fun w => w.username == ident || w.email == ident) = none := by
      rw [List.find?_eq_none]
      intro u hu
      have hu2 := h u hu
      simp [hu2.1, hu2.2]
    simp [authenticate_user, hfind]
  · intro u hfind
    have hmem := List.find?_some hfind
    simp only [Bool.or_eq_true, beq_iff_eq] at hmem
    refine ⟨hmem, ?_, ?_⟩
    · intro hv
      simp [authenticate_user, hfind, hv]
    · intro hv
      simp [authenticate_user, hfind, hv]

/-- Witness for C7 at concrete inputs: an unknown identifier and a wrong
password for a known user produce the same `None`. -/
theorem claim_C7_witness :
    authenticate_user demoDbAlice "bob" "secret1" = none
    ∧ authenticate_user demoDbAlice "alice" "wrongpw" = none :=
  ⟨(claim_C7_authenticate_uniform_failure demoDbAlice "bob" "secret1").1 (by decide),
   ((claim_C7_authenticate_uniform_failure demoDbAlice "alice" "wrongpw").2
      demoUserAlice (by decide)).2.1 (by decide)⟩

/-- C4: a token returned by `create_session` and immediately passed to
`validate_session` yields that same user; once the ttl (`duration_hours`,
default 24 in the source) has elapsed, validation of that token returns
`None`; and validation of any token with no session in the store also
returns `None` without raising — expired and unknown tokens are
indistinguishable. -/
theorem claim_C4_session_lifecycle (db : Db) (uid : Nat) (u : UserRow) (tk : String)
    (now dur t : Nat)
    (hdur : 0 < dur)
    (hfresh : ∀ s ∈ db.user_sessions.rows, s.session_token ≠ tk)
    (huser : db.users.rows.find? (fun w => w.id == uid) = some u)
    (hexp : now + dur * 3600 ≤ t) :
    (create_session db uid tk now dur).1 = some tk
    ∧ validate_session (create_session db uid tk now dur).2 tk now = some u
    ∧ validate_session (create_session db uid tk now dur).2 tk t = none
    ∧ (∀ tk2 : String,
        (∀ s ∈ (create_session db uid tk now dur).2.user_sessions.rows,
          s.session_token ≠ tk2) →
        validate_session (create_session db uid tk now dur).2 tk2 t = none) := by
  have hany : db.user_sessions.rows.any (fun s => s.session_token == tk) = false := by
    rw [List.any_eq_false]
    intro s hs
    simp [hfresh s hs]
  have h2 : (create_session db uid tk now dur).2.user_sessions.rows
      = db.user_sessions.rows ++ [⟨uid, tk, now + dur * 3600⟩] := by
    simp [create_session, hany]
  have husers : (create_session db uid tk now dur).2.users = db.users := by
    simp [create_session, hany]
  refine ⟨by simp [create_session, hany], ?_, ?_, ?_⟩
  · unfold validate_session
    rw [h2, find?_append_single _ _ _ (fun s hs => by simp [hfresh s hs])
        (by simp only [beq_self_eq_true, Bool.true_and, decide_eq_true_eq]; omega)]
    simp only []
    rw [husers]
    exact huser
  · unfold validate_session
    have hnone : (create_session db uid tk now dur).2.user_sessions.rows.find?
        (fun s => s.session_token == tk && decide (t < s.expires_at)) = none := by
      rw [h2, List.find?_eq_none]
      intro s hs
      rcases List.mem_append.mp hs with hs1 | hs2
      · simp [hfresh s hs1]
      · simp only [List.mem_singleton] at hs2
        subst hs2
        simp
        omega
    simp [hnone]
  · intro tk2 hnone2
    unfold validate_session
    have hnone : (create_session db uid tk now dur).2.user_sessions.rows.find?
        (fun s => s.session_token == tk2 && decide (t < s.expires_at)) = none := by
      rw [List.find?_eq_none]
      intro s hs
      simp [hnone2 s hs]
    simp [hnone]

/-- Witness for C4 at concrete inputs: create a 24-hour session at time 0,
validate immediately, validate at expiry, and validate an unknown token. -/
theorem claim_C4_witness :
    (create_session demoDbAlice 1 "tok123" 0 24).1 = some "tok123"
    ∧ validate_session (create_session demoDbAlice 1 "tok123" 0 24).2 "tok123" 0
        = some demoUserAlice
    ∧ validate_session (create_session demoDbAlice 1 "tok123" 0 24).2 "tok123" 86400 = none
    ∧ validate_session (create_session demoDbAlice 1 "tok123" 0 24).2 "other" 86400 = none := by
  have h := claim_C4_session_lifecycle demoDbAlice 1 demoUserAlice "tok123" 0 24 86400
    (by decide) (by decide) (by decide) (by decide)
  exact ⟨h.1, h.2.1, h.2.2.1, h.2.2.2 "other" (by decide)⟩

theorem findCol_map_setCol (l : List (String × SqlValue)) (f g : String) (v : SqlValue)
    (hne : f ≠ g) :
    ((l.map fun p => if p.1 = g then (p.1, v) else p).find? (fun p => p.1 == f))
      = l.find? (fun p => p.1 == f) := by
  induction l with
  | nil => rfl
  | cons p t ih =>
    rw [List.map_cons]
    by_cases hpf : p.1 = f
    · have hg : ¬ p.1 = g := by rw [hpf]; exact hne
      rw [if_neg hg, List.find?_cons_of_pos _ (by simp [hpf]),
        List.find?_cons_of_pos _ (by simp [hpf])]
    · by_cases hg : p.1 = g
      · rw [if_pos hg, List.find?_cons_of_neg _ (by simp [hpf]),
          List.find?_cons_of_neg _ (by simp [hpf]), ih]
      · rw [if_neg hg, List.find?_cons_of_neg _ (by simp [hpf]),
          List.find?_cons_of_neg _ (by simp [hpf]), ih]

theorem getCol_setCol_ne (u : UserRow) (f g : String) (v : SqlValue) (hne : f ≠ g) :
    (u.setCol g v).getCol f = u.getCol f := by
  unfold UserRow.getCol UserRow.setCol dget
  rw [findCol_map_setCol u.profile f g v hne]

theorem findCol_map_setCol_self (l : List (String × SqlValue)) (f : String) (v : SqlValue)
    (hmem : f ∈ l.map Prod.fst) :
    ((l.map fun p => if p.1 = f then (p.1, v) else p).find? (fun p => p.1 == f))
      = some (f, v) := by
  induction l with
  | nil => cases hmem
  | cons p t ih =>
    rw [List.map_cons]
    by_cases hpf : p.1 = f
    · rw [if_pos hpf, List.find?_cons_of_pos _ (by simp [hpf]), hpf]
    · rw [if_neg hpf, List.find?_cons_of_neg _ (by simp [hpf])]
      refine ih ?_
      rcases List.mem_map.mp hmem with ⟨q, hq, hq2⟩
      rcases List.mem_cons.mp hq with h1 | h2
      · exact absurd (h1 ▸ hq2) hpf
      · exact List.mem_map.mpr ⟨q, h2, hq2⟩

theorem getCol_setCol_self (u : UserRow) (f : String) (v : SqlValue)
    (hmem : f ∈ u.profile.map Prod.fst) :
    (u.setCol f v).getCol f = v := by
  unfold UserRow.getCol UserRow.setCol dget
  rw [findCol_map_setCol_self u.profile f v hmem]

theorem keys_setCol (u : UserRow) (g : String) (v : SqlValue) :
    (u.setCol g v).profile.map Prod.fst = u.profile.map Prod.fst := by
  unfold UserRow.setCol
  rw [List.map_map]
  refine List.map_congr_left fun p _ => ?_
  by_cases hg : p.1 = g
  · simp [hg]
  · simp [hg]

theorem foldl_setCol_fixed (ups : List (String × SqlValue)) (u : UserRow) :
    (ups.foldl (fun r fv => r.setCol fv.1 fv.2) u).id = u.id
    ∧ (ups.foldl (fun r fv => r.setCol fv.1 fv.2) u).username = u.username
    ∧ (ups.foldl (fun r fv => r.setCol fv.1 fv.2) u).email = u.email
    ∧ (ups.foldl (fun r fv => r.setCol fv.1 fv.2) u).password_hash = u.password_hash := by
  induction ups generalizing u with
  | nil => exact ⟨rfl, rfl, rfl, rfl⟩
  | cons a t ih =>
    rw [List.foldl_cons]
    exact ih (u.setCol a.1 a.2)

theorem foldl_setCol_keys (ups : List (String × SqlValue)) (u : UserRow) :
    (ups.foldl (fun r fv => r.setCol fv.1 fv.2) u).profile.map Prod.fst
      = u.profile.map Prod.fst := by
  induction ups generalizing u with
  | nil => rfl
  | cons a t ih =>
    rw [List.foldl_cons, ih (u.setCol a.1 a.2), keys_setCol]

theorem foldl_setCol_frame (ups : List (String × SqlValue)) (u : UserRow) (f : String)
    (h : ∀ fv ∈ ups, fv.1 ≠ f) :
    (ups.foldl (fun r fv => r.setCol fv.1 fv.2) u).getCol f = u.getCol f := by
  induction ups generalizing u with
  | nil => rfl
  | cons a t ih =>
    rw [List.foldl_cons, ih (u.setCol a.1 a.2)
      (fun fv hfv => h fv (List.mem_cons_of_mem a hfv))]
    exact getCol_setCol_ne u f a.1 a.2
      fun he => h a (List.mem_cons_self a t) he.symm

theorem foldl_setCol_apply (ups : List (String × SqlValue)) (u : UserRow) (f : String)
    (v : SqlValue) (hnd : (ups.map Prod.fst).Nodup) (hfv : (f, v) ∈ ups)
    (hkey : f ∈ u.profile.map Prod.fst) :
    (ups.foldl (fun r fv => r.setCol fv.1 fv.2) u).getCol f = v := by
  induction ups generalizing u with
  | nil => cases hfv
  | cons a t ih =>
    rw [List.foldl_cons]
    rcases List.mem_cons.mp hfv with heq | hmem
    · subst heq
      rw [foldl_setCol_frame t _ f (fun fv hfv2 he => by
        rw [List.map_cons, List.nodup_cons] at hnd
        exact hnd.1 (List.mem_map.mpr ⟨fv, hfv2, he⟩))]
      exact getCol_setCol_self u f v hkey
    · refine ih (u.setCol a.1 a.2) ?_ hmem ?_
      · rw [List.map_cons, List.nodup_cons] at hnd
        exact hnd.2
      · rw [keys_setCol]
        exact hkey

theorem map_fst_filterMap_lookup (l : List String) (h : String → Option SqlValue) :
    ((l.filterMap fun g => (h g).map fun w => (g, w)).map Prod.fst)
      = l.filter fun g => (h g).isSome := by
  induction l with
  | nil => rfl
  | cons a t ih =>
    cases ha : h a with
    | none => simp [List.filterMap_cons, ha, ih, List.filter_cons]
    | some w => simp [List.filterMap_cons, ha, ih, List.filter_cons]

theorem getD_map_self {α : Type} (l : List α) (h : α → α) (i : Nat) (d : α)
    (hi : i < l.length) :
    (l.map h).getD i d = h (l.getD i d) := by
  rw [List.getD_eq_getElem?_getD, List.getElem?_map, List.getD_eq_getElem?_getD,
    List.getElem?_eq_getElem hi]
  simp

theorem mem_profile_updates (pd : List (String × SqlValue)) (f : String) (v : SqlValue) :
    ((f, v) ∈ profileFields.filterMap fun g => (dlookup pd g).map fun w => (g, w))
      ↔ (f ∈ profileFields ∧ dlookup pd f = some v) := by
  rw [List.mem_filterMap]
  constructor
  · rintro ⟨g, hg, hmap⟩
    rw [Option.map_eq_some'] at hmap
    obtain ⟨w, hw, heq⟩ := hmap
    obtain ⟨h1, h2⟩ := Prod.mk.injEq .. ▸ heq
    exact ⟨h1 ▸ hg, h1 ▸ h2 ▸ hw⟩
  · rintro ⟨hmem, hlk⟩
    exact ⟨f, hmem, by rw [hlk]; rfl⟩

/-- C8: `update_user_profile` writes only the fields present in the input
map; every column omitted from the map — and every identity column — keeps
its prior value, rows of other users are untouched, and a present
whitelisted field is written with its new value. -/
theorem claim_C8_update_profile_partial
    (db : Db) (uid : Nat) (pd : List (String × SqlValue)) (i : Nat) (f : String)
    (dflt : UserRow)
    (hi : i < db.users.rows.length)
    (hf : dlookup pd f = none) :
    ((update_user_profile db uid pd).2.users.rows.length = db.users.rows.length)
    ∧ ((update_user_profile db uid pd).2.users.rows.getD i dflt).id
        = (db.users.rows.getD i dflt).id
    ∧ ((update_user_profile db uid pd).2.users.rows.getD i dflt).username
        = (db.users.rows.getD i dflt).username
    ∧ ((update_user_profile db uid pd).2.users.rows.getD i dflt).email
        = (db.users.rows.getD i dflt).email
    ∧ ((update_user_profile db uid pd).2.users.rows.getD i dflt).password_hash
        = (db.users.rows.getD i dflt).password_hash
    ∧ ((update_user_profile db uid pd).2.users.rows.getD i dflt).getCol f
        = (db.users.rows.getD i dflt).getCol f
    ∧ ((db.users.rows.getD i dflt).id ≠ uid →
        (update_user_profile db uid pd).2.users.rows.getD i dflt
          = db.users.rows.getD i dflt)
    ∧ (∀ g v, g ∈ profileFields → dlookup pd g = some v →
        (db.users.rows.getD i dflt).id = uid →
        g ∈ (db.users.rows.getD i dflt).profile.map Prod.fst →
        ((update_user_profile db uid pd).2.users.rows.getD i dflt).getCol g = v) := by
  by_cases hemp : (profileFields.filterMap fun g => (dlookup pd g).map fun w => (g, w)).isEmpty
  · have hsame : (update_user_profile db uid pd).2 = db := by
      simp [update_user_profile, hemp]
    refine ⟨by rw [hsame], by rw [hsame], by rw [hsame], by rw [hsame], by rw [hsame],
      by rw [hsame], fun _ => by rw [hsame], ?_⟩
    intro g v hg hlk _ _
    exfalso
    have : (g, v) ∈ profileFields.filterMap fun g => (dlookup pd g).map fun w => (g, w) :=
      (mem_profile_updates pd g v).mpr ⟨hg, hlk⟩
    rw [List.isEmpty_iff] at hemp
    rw [hemp] at this
    cases this
  · have hrows : (update_user_profile db uid pd).2.users.rows
        = db.users.rows.map fun u =>
            if u.id == uid then
              (profileFields.filterMap fun g => (dlookup pd g).map fun w => (g, w)).foldl
                (fun r fv => r.setCol fv.1 fv.2) u
            else u := by
      simp [update_user_profile, hemp]
    have hrow : (update_user_profile db uid pd).2.users.rows.getD i dflt
        = if (db.users.rows.getD i dflt).id == uid then
            (profileFields.filterMap fun g => (dlookup pd g).map fun w => (g, w)).foldl
              (fun r fv => r.setCol fv.1 fv.2) (db.users.rows.getD i dflt)
          else db.users.rows.getD i dflt := by
      rw [hrows, getD_map_self _ _ i dflt hi]
    have hndk : ((profileFields.filterMap fun g =>
        (dlookup pd g).map fun w => (g, w)).map Prod.fst).Nodup := by
      rw [map_fst_filterMap_lookup]
      exact List.Nodup.filter _ (by decide)
    by_cases hid : (db.users.rows.getD i dflt).id = uid
    · have hif : ((db.users.rows.getD i dflt).id == uid) = true := by
        rw [hid]
        exact beq_self_eq_true uid
      have hrow2 : (update_user_profile db uid pd).2.users.rows.getD i dflt
          = (profileFields.filterMap fun g => (dlookup pd g).map fun w => (g, w)).foldl
              (fun r fv => r.setCol fv.1 fv.2) (db.users.rows.getD i dflt) := by
        rw [hrow, if_pos hif]
      have hfix := foldl_setCol_fixed
        (profileFields.filterMap fun g => (dlookup pd g).map fun w => (g, w))
        (db.users.rows.getD i dflt)
      refine ⟨by rw [hrows]; exact List.length_map .., by rw [hrow2]; exact hfix.1,
        by rw [hrow2]; exact hfix.2.1, by rw [hrow2]; exact hfix.2.2.1,
        by rw [hrow2]; exact hfix.2.2.2, ?_, fun hne => absurd hid hne, ?_⟩
      · rw [hrow2]
        exact foldl_setCol_frame _ _ f fun fv hfv he => by
          have hm := (mem_profile_updates pd fv.1 fv.2).mp (by simpa using hfv)
          rw [he] at hm
          rw [hm.2] at hf
          cases hf
      · intro g v hg hlk _ hkey
        rw [hrow2]
        exact foldl_setCol_apply _ _ g v hndk
          ((mem_profile_updates pd g v).mpr ⟨hg, hlk⟩) hkey
    · have hif : ¬ ((db.users.rows.getD i dflt).id == uid) = true := by
        simp only [beq_iff_eq]
        exact hid
      have hrow2 : (update_user_profile db uid pd).2.users.rows.getD i dflt
          = db.users.rows.getD i dflt := by
        rw [hrow, if_neg hif]
      exact ⟨by rw [hrows]; exact List.length_map .., by rw [hrow2], by rw [hrow2],
        by rw [hrow2], by rw [hrow2], by rw [hrow2], fun _ => hrow2,
        fun g v _ _ hid2 _ => absurd hid2 hid⟩

/-- Witness for C8 at concrete inputs: updating only `weight_kg` leaves a
previously set `fitness_goals` unchanged while writing the new weight. -/
theorem claim_C8_witness :
    ((update_user_profile demoDbAlice 1
        [("weight_kg", SqlValue.realV 80)]).2.users.rows.getD 0 demoUserAlice).getCol
      "fitness_goals" = SqlValue.textV "strength"
    ∧ ((update_user_profile demoDbAlice 1
        [("weight_kg", SqlValue.realV 80)]).2.users.rows.getD 0 demoUserAlice).getCol
      "weight_kg" = SqlValue.realV 80 := by
  have h := claim_C8_update_profile_partial demoDbAlice 1
    [("weight_kg", SqlValue.realV 80)] 0 "fitness_goals" demoUserAlice
    (by decide) (by decide)
  constructor
  · rw [h.2.2.2.2.2.1]
    decide
  · exact h.2.2.2.2.2.2.2 "weight_kg" (SqlValue.realV 80)
      (by decide) (by decide) (by decide) (by decide)

/-- C5: `delete_workout_plan` removes the plan's exercise logs, workout
logs, exercise links, day rows and the plan row (children before parents,
one commit) and leaves the shared `exercises` catalog unchanged;
`delete_diet_plan` likewise removes the plan's meals and shopping-list
rows before the plan row and touches no catalog row. -/
theorem claim_C5_delete_plan_cascade (db : Db) (pid : Nat) :
    ((delete_workout_plan db pid).1 = true
      ∧ (delete_workout_plan db pid).2.exercises = db.exercises
      ∧ (delete_workout_plan db pid).2.workout_plans.rows
          = db.workout_plans.rows.filter (fun p => !(p.id == pid))
      ∧ (delete_workout_plan db pid).2.workout_days.rows
          = db.workout_days.rows.filter (fun d => !(d.workout_plan_id == pid))
      ∧ (delete_workout_plan db pid).2.workout_exercises.rows
          = db.workout_exercises.rows.filter
              (fun w => !((planDayIds db pid).contains w.workout_day_id))
      ∧ (delete_workout_plan db pid).2.workout_logs.rows
          = db.workout_logs.rows.filter
              (fun wl => !((planDayIds db pid).contains wl.workout_day_id))
      ∧ (delete_workout_plan db pid).2.exercise_logs.rows
          = db.exercise_logs.rows.filter
              (fun el => !((planLogIds db pid).contains el.workout_log_id)))
    ∧ ((delete_diet_plan db pid).1 = true
      ∧ (delete_diet_plan db pid).2.exercises = db.exercises
      ∧ (delete_diet_plan db pid).2.meal_plans.rows
          = db.meal_plans.rows.filter (fun m => !(m.diet_plan_id == pid))
      ∧ (delete_diet_plan db pid).2.shopping_lists.rows
          = db.shopping_lists.rows.filter (fun s => !(s.diet_plan_id == pid))
      ∧ (delete_diet_plan db pid).2.diet_plans.rows
          = db.diet_plans.rows.filter (fun p => !(p.id == pid))) :=
  ⟨⟨rfl, rfl, rfl, rfl, rfl, rfl, rfl⟩, rfl, rfl, rfl, rfl, rfl⟩

/-- C10: any `date_range` label other than the six recognised ones falls
back to a 30-day window in both `get_nutrition_logs` and
`get_workout_history` — an unrecognised range behaves exactly like
`"1 Month"`. -/
theorem claim_C10_unrecognized_range_fallback (db : Db) (uid now : Nat) (r : String)
    (hr : r ∉ ["1 Week", "2 Weeks", "1 Month", "3 Months", "6 Months", "1 Year"]) :
    rangeDays r = 30
    ∧ get_nutrition_logs db uid r now = get_nutrition_logs db uid "1 Month" now
    ∧ get_workout_history db uid r now = get_workout_history db uid "1 Month" now := by
  simp only [List.mem_cons, List.not_mem_nil, or_false, not_or] at hr
  obtain ⟨h1, h2, h3, h4, h5, h6⟩ := hr
  have h30 : rangeDays r = 30 := by
    simp [rangeDays, h1, h2, h3, h4, h5, h6]
  have h1m : rangeDays "1 Month" = 30 := by decide
  refine ⟨h30, ?_, ?_⟩
  · unfold get_nutrition_logs
    rw [h30, h1m]
  · unfold get_workout_history
    rw [h30, h1m]

/-- Witness for C10 at a concrete unrecognised label. -/
theorem claim_C10_witness :
    rangeDays "6 Weeks" = 30
    ∧ get_nutrition_logs emptyDb 1 "6 Weeks" 0 = get_nutrition_logs emptyDb 1 "1 Month" 0
    ∧ get_workout_history emptyDb 1 "6 Weeks" 0
        = get_workout_history emptyDb 1 "1 Month" 0 :=
  claim_C10_unrecognized_range_fallback emptyDb 1 0 "6 Weeks" (by decide)

/-- C9: `get_nutrition_logs` maps the six labels to 7/14/30/90/180/365
days, sums calories per calendar day inside the window, returns a single
aggregated row with calories 1100 for a user whose in-window logs are two
logs of 500 and 600 calories on one day, and attaches the most recently
created diet plan's calorie target as the reference column. -/
theorem claim_C9_nutrition_daily_aggregation
    (db : Db) (uid now : Nat) (label : String) (d : Nat) (l1 l2 : MealLogRow)
    (hw : userLogsInWindow db uid (now - rangeDays label) = [l1, l2])
    (hd1 : l1.logged_date = d) (hd2 : l2.logged_date = d)
    (hc1 : l1.calories_consumed = 500) (hc2 : l2.calories_consumed = 600) :
    (rangeDays "1 Week" = 7 ∧ rangeDays "2 Weeks" = 14 ∧ rangeDays "1 Month" = 30
      ∧ rangeDays "3 Months" = 90 ∧ rangeDays "6 Months" = 180
      ∧ rangeDays "1 Year" = 365)
    ∧ (∀ r ∈ (get_nutrition_logs db uid label now).rows,
        r.calories = (((userLogsInWindow db uid (now - rangeDays label)).filter
          (fun l => l.logged_date == r.date)).map (fun l => l.calories_consumed)).sum)
    ∧ (get_nutrition_logs db uid label now).rows.map (fun r => (r.date, r.calories))
        = [(d, 1100)]
    ∧ (∀ p, mostRecentDietPlan db uid = some p → p.calorie_target ≠ SqlValue.null →
        (get_nutrition_logs db uid label now).target_calories = some p.calorie_target) := by
  have hrows : (get_nutrition_logs db uid label now).rows
      = (groupDatesAsc ((userLogsInWindow db uid (now - rangeDays label)).map
          (·.logged_date))).map fun dd =>
        let dayLogs := (userLogsInWindow db uid (now - rangeDays label)).filter
          (fun l => l.logged_date == dd)
        { date := dd,
          calories := (dayLogs.map (·.calories_consumed)).sum,
          protein := (dayLogs.map (·.protein_g)).sum,
          carbs := (dayLogs.map (·.carbs_g)).sum,
          fats := (dayLogs.map (·.fat_g)).sum : NutritionDayRow } := rfl
  have hdates : groupDatesAsc ((userLogsInWindow db uid (now - rangeDays label)).map
      (·.logged_date)) = [d] := by
    rw [hw]
    simp only [List.map_cons, List.map_nil, hd1, hd2, groupDatesAsc, List.foldl_cons,
      List.foldl_nil, insertAscDedup, lt_irrefl, if_false, eq_self_iff_true, if_true]
  have hday : (userLogsInWindow db uid (now - rangeDays label)).filter
      (fun l => l.logged_date == d) = [l1, l2] := by
    rw [hw]
    simp [List.filter, hd1, hd2]
  refine ⟨⟨by decide, by decide, by decide, by decide, by decide, by decide⟩, ?_, ?_, ?_⟩
  · intro r hr
    rw [hrows] at hr
    obtain ⟨dd, _, rfl⟩ := List.mem_map.mp hr
    rfl
  · rw [hrows, hdates]
    simp only [List.map_cons, List.map_nil, hday]
    rw [hc1, hc2]
    norm_num
  · intro p hp hnull
    have hne : ¬ (get_nutrition_logs db uid label now).rows.isEmpty = true := by
      rw [hrows, hdates]
      simp
    have htc : (get_nutrition_logs db uid label now).target_calories
        = if (get_nutrition_logs db uid label now).rows.isEmpty then none
          else match mostRecentDietPlan db uid with
            | some q => if q.calorie_target == SqlValue.null then none
                        else some q.calorie_target
            | none => none := rfl
    rw [htc, if_neg hne, hp]
    simp [beq_eq_false_iff_ne.mpr hnull]

/-- Witness for C9 at concrete inputs: two logs of 500 and 600 calories on
day 5 yield one aggregated row with 1100 calories and the plan's
2000-calorie target attached. -/
theorem claim_C9_witness :
    (get_nutrition_logs demoDbLogs 1 "1 Week" 5).rows.map (fun r => (r.date, r.calories))
      = [(5, 1100)]
    ∧ (get_nutrition_logs demoDbLogs 1 "1 Week" 5).target_calories
        = some (SqlValue.intV 2000) := by
  have h := claim_C9_nutrition_daily_aggregation demoDbLogs 1 5 "1 Week" 5
    demoLog1 demoLog2 (by decide) (by decide) (by decide) (by decide) (by decide)
  exact ⟨h.2.2.1, h.2.2.2 demoDietPlan (by decide) (by decide)⟩

theorem insertOrIgnore_frame (db : Db) (ex : ExercisePayload) :
    (insertOrIgnoreExercise db ex).workout_exercises = db.workout_exercises
    ∧ (insertOrIgnoreExercise db ex).workout_days = db.workout_days
    ∧ (insertOrIgnoreExercise db ex).workout_plans = db.workout_plans := by
  unfold insertOrIgnoreExercise
  split
  · exact ⟨rfl, rfl, rfl⟩
  · exact ⟨rfl, rfl, rfl⟩

theorem exerciseStepDb_frame (db : Db) (ex : ExercisePayload) (erow : ExerciseRow)
    (day_id : Nat) :
    (exerciseStepDb db ex erow day_id).workout_days = db.workout_days
    ∧ (exerciseStepDb db ex erow day_id).workout_plans = db.workout_plans
    ∧ (exerciseStepDb db ex erow day_id).workout_exercises.rows
        = db.workout_exercises.rows ++ [⟨db.workout_exercises.nextId, day_id, erow.id, pget ex.sets, pget ex.reps, pget ex.weight_kg, pget ex.rest_seconds, pget ex.notes⟩]
    ∧ (exerciseStepDb db ex erow day_id).exercises = (insertOrIgnoreExercise db ex).exercises := by
  obtain ⟨g1, g2, g3⟩ := insertOrIgnore_frame db ex
  unfold exerciseStepDb
  refine ⟨?_, ?_, ?_, rfl⟩
  · show (insertOrIgnoreExercise db ex).workout_days = db.workout_days
    exact g2
  · show (insertOrIgnoreExercise db ex).workout_plans = db.workout_plans
    exact g3
  · show (((insertOrIgnoreExercise db ex).workout_exercises.insertRow fun i => { id := i, workout_day_id := day_id, exercise_id := erow.id, sets := pget ex.sets, reps := pget ex.reps, weight_kg := pget ex.weight_kg, rest_seconds := pget ex.rest_seconds, notes := pget ex.notes }).2).rows = db.workout_exercises.rows ++ [⟨db.workout_exercises.nextId, day_id, erow.id, pget ex.sets, pget ex.reps, pget ex.weight_kg, pget ex.rest_seconds, pget ex.notes⟩]
    rw [g1]
    rfl

theorem saveExercisesLoop_counts (fails : Nat → Bool) (day_id : Nat) :
    ∀ (es : List ExercisePayload) (db : Db) (k : Nat) (db' : Db) (k' : Nat),
    saveExercisesLoop fails day_id es db k = Except.ok (db', k') →
    db'.workout_exercises.rows.length = db.workout_exercises.rows.length + es.length
    ∧ db'.workout_days = db.workout_days
    ∧ db'.workout_plans = db.workout_plans := by
  intro es
  induction es with
  | nil =>
    intro db k db' k' h
    unfold saveExercisesLoop at h
    simp only [Except.ok.injEq, Prod.mk.injEq] at h
    rw [← h.1]
    exact ⟨rfl, rfl, rfl⟩
  | cons ex rest ih =>
    intro db k db' k' h
    unfold saveExercisesLoop at h
    split at h
    · exact absurd h (by simp)
    · split at h
      · exact absurd h (by simp)
      · rename_i erow heq
        split at h
        · exact absurd h (by simp)
        · obtain ⟨h1, h2, h3⟩ := ih _ _ _ _ h
          obtain ⟨f1, f2, f3, f4⟩ := exerciseStepDb_frame db ex erow day_id
          refine ⟨?_, ?_, ?_⟩
          · rw [h1, f3]
            simp only [List.length_append, List.length_cons, List.length_nil]
            omega
          · rw [h2, f1]
          · rw [h3, f2]

theorem saveDaysLoop_counts (fails : Nat → Bool) (pid : Nat) :
    ∀ (days : List DayPayload) (db : Db) (k : Nat) (db' : Db) (k' : Nat),
    saveDaysLoop fails pid days db k = Except.ok (db', k') →
    db'.workout_days.rows.length = db.workout_days.rows.length + days.length
    ∧ db'.workout_exercises.rows.length = db.workout_exercises.rows.length
        + ((days.map fun dy => (dy.exercises.getD []).length).sum)
    ∧ db'.workout_plans = db.workout_plans := by
  intro days
  induction days with
  | nil =>
    intro db k db' k' h
    unfold saveDaysLoop at h
    simp only [Except.ok.injEq, Prod.mk.injEq] at h
    rw [← h.1]
    exact ⟨rfl, rfl, rfl⟩
  | cons day rest ih =>
    intro db k db' k' h
    unfold saveDaysLoop at h
    split at h
    · exact absurd h (by simp)
    · split at h
      · exact absurd h (by simp)
      · rename_i db2 k2 heq
        obtain ⟨g1, g2, g3⟩ := saveExercisesLoop_counts fails _ _ _ _ _ _ heq
        obtain ⟨h1, h2, h3⟩ := ih _ _ _ _ h
        simp only [Table.insertRow] at g1 g2 g3
        constructor
        · rw [h1, g2]
          simp only [Table.insertRow, List.length_append, List.length_cons,
            List.length_nil, List.length_map]
          omega
        constructor
        · rw [h2, g1]
          simp only [List.map_cons, List.sum_cons]
          omega
        · rw [h3, g3]

theorem saveMealsLoop_counts (fails : Nat → Bool) (pid : Nat) :
    ∀ (ms : List MealPayload) (db : Db) (k : Nat) (db' : Db) (k' : Nat),
    saveMealsLoop fails pid ms db k = Except.ok (db', k') →
    db'.meal_plans.rows.length = db.meal_plans.rows.length + ms.length
    ∧ db'.shopping_lists = db.shopping_lists
    ∧ db'.diet_plans = db.diet_plans := by
  intro ms
  induction ms with
  | nil =>
    intro db k db' k' h
    unfold saveMealsLoop at h
    simp only [Except.ok.injEq, Prod.mk.injEq] at h
    rw [← h.1]
    exact ⟨rfl, rfl, rfl⟩
  | cons m rest ih =>
    intro db k db' k' h
    unfold saveMealsLoop at h
    split at h
    · exact absurd h (by simp)
    · obtain ⟨h1, h2, h3⟩ := ih _ _ _ _ h
      simp only [Table.insertRow] at h1 h2 h3
      refine ⟨?_, h2, h3⟩
      rw [h1]
      simp [List.length_append]
      omega

theorem saveShoppingLoop_counts (fails : Nat → Bool) (uid pid : Nat) :
    ∀ (its : List ShoppingItemPayload) (db : Db) (k : Nat) (db' : Db) (k' : Nat),
    saveShoppingLoop fails uid pid its db k = Except.ok (db', k') →
    db'.shopping_lists.rows.length = db.shopping_lists.rows.length + its.length
    ∧ db'.meal_plans = db.meal_plans
    ∧ db'.diet_plans = db.diet_plans := by
  intro its
  induction its with
  | nil =>
    intro db k db' k' h
    unfold saveShoppingLoop at h
    simp only [Except.ok.injEq, Prod.mk.injEq] at h
    rw [← h.1]
    exact ⟨rfl, rfl, rfl⟩
  | cons it rest ih =>
    intro db k db' k' h
    unfold saveShoppingLoop at h
    split at h
    · exact absurd h (by simp)
    · obtain ⟨h1, h2, h3⟩ := ih _ _ _ _ h
      simp only [Table.insertRow] at h1 h2 h3
      refine ⟨?_, h2, h3⟩
      rw [h1]
      simp [List.length_append]
      omega

theorem save_workout_plan_rollback (db : Db) (uid : Nat) (plan : WorkoutPlanPayload)
    (fails : Nat → Bool) (h : (save_workout_plan db uid plan fails).1 = none) :
    (save_workout_plan db uid plan fails).2 = db := by
  by_cases hf : fails 0
  · simp [save_workout_plan, hf]
  · unfold save_workout_plan at h ⊢
    simp only [hf, Bool.false_eq_true, if_false] at h ⊢
    split at h
    · rfl
    · exact absurd h (by simp)

theorem save_diet_plan_rollback (db : Db) (uid : Nat) (diet : DietPlanPayload)
    (now : Nat) (fails : Nat → Bool)
    (h : (save_diet_plan db uid diet now fails).1 = none) :
    (save_diet_plan db uid diet now fails).2 = db := by
  by_cases hf : fails 0
  · simp [save_diet_plan, hf]
  · unfold save_diet_plan at h ⊢
    simp only [hf, Bool.false_eq_true, if_false] at h ⊢
    split at h
    · rfl
    · split at h
      · rfl
      · exact absurd h (by simp)

/-- C2: each multi-row save is one transaction: when `save_workout_plan`
or `save_diet_plan` reports failure (`None`) — e.g. because an insert
failed partway through — the database is exactly what it was before the
call, and when it succeeds the plan row, every day row, every exercise
link, every meal row and every shopping-list row have all been
committed. -/
theorem claim_C2_save_plans_atomic (db : Db) (uid now : Nat)
    (plan : WorkoutPlanPayload) (diet : DietPlanPayload) (fails fails2 : Nat → Bool) :
    ((save_workout_plan db uid plan fails).1 = none →
      (save_workout_plan db uid plan fails).2 = db)
    ∧ (∀ pid, (save_workout_plan db uid plan fails).1 = some pid →
        (∃ pr ∈ (save_workout_plan db uid plan fails).2.workout_plans.rows,
          pr.id = pid ∧ pr.user_id = uid ∧ pr.name = pget plan.name)
        ∧ (save_workout_plan db uid plan fails).2.workout_plans.rows.length
            = db.workout_plans.rows.length + 1
        ∧ (save_workout_plan db uid plan fails).2.workout_days.rows.length
            = db.workout_days.rows.length + (plan.days.getD []).length
        ∧ (save_workout_plan db uid plan fails).2.workout_exercises.rows.length
            = db.workout_exercises.rows.length
              + (((plan.days.getD []).map fun dy => (dy.exercises.getD []).length).sum))
    ∧ ((save_diet_plan db uid diet now fails2).1 = none →
      (save_diet_plan db uid diet now fails2).2 = db)
    ∧ (∀ pid, (save_diet_plan db uid diet now fails2).1 = some pid →
        (∃ pr ∈ (save_diet_plan db uid diet now fails2).2.diet_plans.rows,
          pr.id = pid ∧ pr.user_id = uid ∧ pr.name = pget diet.name
            ∧ pr.created_at = now)
        ∧ (save_diet_plan db uid diet now fails2).2.diet_plans.rows.length
            = db.diet_plans.rows.length + 1
        ∧ (save_diet_plan db uid diet now fails2).2.meal_plans.rows.length
            = db.meal_plans.rows.length + (diet.meals.getD []).length
        ∧ (save_diet_plan db uid diet now fails2).2.shopping_lists.rows.length
            = db.shopping_lists.rows.length + (diet.shopping_list.getD []).length) := by
  refine ⟨save_workout_plan_rollback db uid plan fails, ?_,
    save_diet_plan_rollback db uid diet now fails2, ?_⟩
  · intro pid hp
    by_cases hf : fails 0
    · simp [save_workout_plan, hf] at hp
    · unfold save_workout_plan at hp ⊢
      simp only [hf, Bool.false_eq_true, if_false] at hp ⊢
      split at hp
      · exact absurd hp (by simp)
      · rename_i db2 k2 heq
        simp only [Option.some.injEq] at hp
        obtain ⟨h1, h2, h3⟩ := saveDaysLoop_counts fails _ _ _ _ _ _ heq
        simp only [Table.insertRow] at h1 h2 h3
        obtain ⟨prow, hprow⟩ : ∃ pr : WorkoutPlanRow,
            pr = { id := db.workout_plans.nextId, user_id := uid, name := pget plan.name,
                   description := pget plan.description,
                   duration_weeks := pget plan.duration_weeks,
                   ai_generated := plan.ai_generated.getD (SqlValue.intV 1),
                   gemini_prompt := pget plan.gemini_prompt } := ⟨_, rfl⟩
        refine ⟨⟨prow, ?_, by rw [hprow]; exact hp, by rw [hprow], by rw [hprow]⟩,
          ?_, ?_, ?_⟩
        · show prow ∈ db2.workout_plans.rows
          rw [h3, hprow]
          simp
        · show db2.workout_plans.rows.length = db.workout_plans.rows.length + 1
          rw [h3]
          simp
        · show db2.workout_days.rows.length
            = db.workout_days.rows.length + (plan.days.getD []).length
          rw [h1]
        · show db2.workout_exercises.rows.length = db.workout_exercises.rows.length
            + (((plan.days.getD []).map fun dy => (dy.exercises.getD []).length).sum)
          rw [h2]
  · intro pid hp
    by_cases hf : fails2 0
    · simp [save_diet_plan, hf] at hp
    · unfold save_diet_plan at hp ⊢
      simp only [hf, Bool.false_eq_true, if_false] at hp ⊢
      split at hp
      · exact absurd hp (by simp)
      · rename_i db2 k2 heq
        split at hp
        · exact absurd hp (by simp)
        · rename_i db3 k3 heq2
          simp only [Option.some.injEq] at hp
          obtain ⟨g1, g2, g3⟩ := saveMealsLoop_counts fails2 _ _ _ _ _ _ heq
          obtain ⟨h1, h2, h3⟩ := saveShoppingLoop_counts fails2 _ _ _ _ _ _ _ heq2
          simp only [Table.insertRow] at g1 g2 g3 h1 h2 h3
          obtain ⟨prow, hprow⟩ : ∃ pr : DietPlanRow,
              pr = { id := db.diet_plans.nextId, user_id := uid, name := pget diet.name,
                     calorie_target := pget diet.calorie_target,
                     protein_target_g := pget diet.protein_target_g,
                     carb_target_g := pget diet.carb_target_g,
                     fat_target_g := pget diet.fat_target_g,
                     dietary_restrictions := pget diet.dietary_restrictions,
                     ai_generated := diet.ai_generated.getD (SqlValue.intV 1),
                     gemini_prompt := pget diet.gemini_prompt,
                     created_at := now } := ⟨_, rfl⟩
          refine ⟨⟨prow, ?_, by rw [hprow]; exact hp, by rw [hprow], by rw [hprow],
            by rw [hprow]⟩, ?_, ?_, ?_⟩
          · show prow ∈ db3.diet_plans.rows
            rw [h3, g3, hprow]
            simp
          · show db3.diet_plans.rows.length = db.diet_plans.rows.length + 1
            rw [h3, g3]
            simp
          · show db3.meal_plans.rows.length
              = db.meal_plans.rows.length + (diet.meals.getD []).length
            rw [h2, g1]
          · show db3.shopping_lists.rows.length
              = db.shopping_lists.rows.length + (diet.shopping_list.getD []).length
            rw [h1, g2]

/-- Witness for C2 at concrete inputs: with a failure injected at the third
statement both saves roll back to the untouched database, and with no
failure every row (two days, three links, one meal, one shopping item) is
committed. -/
theorem claim_C2_witness :
    (save_workout_plan emptyDb 1 demoWorkoutPlan failThird).2 = emptyDb
    ∧ (save_workout_plan emptyDb 1 demoWorkoutPlan noFail).2.workout_days.rows.length = 2
    ∧ (save_workout_plan emptyDb 1 demoWorkoutPlan noFail).2.workout_exercises.rows.length = 3
    ∧ (save_diet_plan emptyDb 1 demoDietPayload 9 failThird).2 = emptyDb
    ∧ (save_diet_plan emptyDb 1 demoDietPayload 9 noFail).2.meal_plans.rows.length = 1
    ∧ (save_diet_plan emptyDb 1 demoDietPayload 9 noFail).2.shopping_lists.rows.length = 1 := by
  have h := claim_C2_save_plans_atomic emptyDb 1 9 demoWorkoutPlan demoDietPayload
    failThird failThird
  have h2 := claim_C2_save_plans_atomic emptyDb 1 9 demoWorkoutPlan demoDietPayload
    noFail noFail
  refine ⟨h.1 (by decide), ?_, ?_, h.2.2.1 (by decide), ?_, ?_⟩
  · exact ((h2.2.1 1 (by decide)).2.2.1).trans (by decide)
  · exact ((h2.2.1 1 (by decide)).2.2.2).trans (by decide)
  · exact ((h2.2.2.2 1 (by decide)).2.2.1).trans (by decide)
  · exact ((h2.2.2.2 1 (by decide)).2.2.2).trans (by decide)

theorem countP_le_one_unique {α : Type} (p : α → Bool) :
    ∀ (l : List α), l.countP p ≤ 1 → ∀ a ∈ l, p a = true → ∀ b ∈ l, p b = true → a = b := by
  intro l
  induction l with
  | nil =>
    intro _ a ha
    cases ha
  | cons x t ih =>
    intro hle a ha hpa b hb hpb
    rw [List.countP_cons] at hle
    rcases List.mem_cons.mp ha with rfl | hat
    · rcases List.mem_cons.mp hb with rfl | hbt
      · rfl
      · exfalso
        have h1 : t.countP p = 0 := by
          simp only [hpa, if_true] at hle
          omega
        have h2 : 0 < t.countP p := List.countP_pos_iff.mpr ⟨b, hbt, hpb⟩
        omega
    · rcases List.mem_cons.mp hb with rfl | hbt
      · exfalso
        have h1 : t.countP p = 0 := by
          simp only [hpb, if_true] at hle
          omega
        have h2 : 0 < t.countP p := List.countP_pos_iff.mpr ⟨a, hat, hpa⟩
        omega
      · have hle2 : t.countP p ≤ 1 := by
          by_cases px : p x = true
          · simp only [px, if_true] at hle
            omega
          · simp only [px, if_false] at hle
            omega
        exact ih hle2 a hat hpa b hbt hpb

theorem exerciseRow_id_inj :
    ∀ (l : List ExerciseRow), l.Pairwise (fun a b => a.id ≠ b.id) →
    ∀ a ∈ l, ∀ b ∈ l, a.id = b.id → a = b := by
  intro l
  induction l with
  | nil =>
    intro _ a ha
    cases ha
  | cons x t ih =>
    intro hp a ha b hb hab
    rw [List.pairwise_cons] at hp
    rcases List.mem_cons.mp ha with rfl | hat
    · rcases List.mem_cons.mp hb with rfl | hbt
      · rfl
      · exact absurd hab (hp.1 b hbt)
    · rcases List.mem_cons.mp hb with rfl | hbt
      · exact absurd hab.symm (hp.1 a hat)
      · exact ih hp.2 a hat b hbt hab

theorem insertOrIgnore_cases (db : Db) (ex : ExercisePayload)
    (hnn : (pget ex.name == SqlValue.null) = false) :
    ((∃ e ∈ db.exercises.rows, e.name = pget ex.name)
      ∧ insertOrIgnoreExercise db ex = db)
    ∨ ((∀ e ∈ db.exercises.rows, e.name ≠ pget ex.name)
      ∧ (insertOrIgnoreExercise db ex).exercises.rows
          = db.exercises.rows ++ [⟨db.exercises.nextId, pget ex.name, pget ex.category, pget ex.muscle_groups, pget ex.equipment, pget ex.difficulty_level, pget ex.instructions⟩]
      ∧ (insertOrIgnoreExercise db ex).exercises.nextId = db.exercises.nextId + 1) := by
  by_cases hc : (db.exercises.rows.any fun e => e.name == pget ex.name) = true
  · left
    constructor
    · obtain ⟨e, he, hpe⟩ := List.any_eq_true.mp hc
      exact ⟨e, he, beq_iff_eq.mp hpe⟩
    · unfold insertOrIgnoreExercise
      rw [hnn]
      simp only [Bool.false_or, hc, if_true]
  · right
    have hcf : (db.exercises.rows.any fun e => e.name == pget ex.name) = false :=
      Bool.eq_false_iff.mpr hc
    have hall : ∀ e ∈ db.exercises.rows, e.name ≠ pget ex.name := by
      rw [List.any_eq_false] at hcf
      intro e he hne
      exact hcf e he (by simp [hne])
    refine ⟨hall, ?_, ?_⟩
    · unfold insertOrIgnoreExercise
      rw [hnn]
      simp only [Bool.false_or, hcf, Bool.false_eq_true, if_false]
      rfl
    · unfold insertOrIgnoreExercise
      rw [hnn]
      simp only [Bool.false_or, hcf, Bool.false_eq_true, if_false]
      rfl

theorem exerciseStep_pu (db : Db) (ex : ExercisePayload) (erow : ExerciseRow)
    (day_id : Nat) (v : SqlValue)
    (heq : (insertOrIgnoreExercise db ex).exercises.rows.find?
        (fun e => !(pget ex.name == SqlValue.null) && e.name == pget ex.name) = some erow)
    (hinv : CatalogInv db) (hpu : puCount db v ≤ 1) :
    CatalogInv (exerciseStepDb db ex erow day_id)
    ∧ db.exercises.nextId ≤ (exerciseStepDb db ex erow day_id).exercises.nextId
    ∧ puCount (exerciseStepDb db ex erow day_id) v
        = (if pget ex.name = v then 1 else puCount db v)
    ∧ (∀ r ∈ db.exercises.rows, r ∈ (exerciseStepDb db ex erow day_id).exercises.rows)
    ∧ erow ∈ (exerciseStepDb db ex erow day_id).exercises.rows
    ∧ erow.name = pget ex.name
    ∧ (∀ i : Nat, linkCount (exerciseStepDb db ex erow day_id) i
        = linkCount db i + (if erow.id = i then 1 else 0))
    ∧ (erow ∈ db.exercises.rows
        ∨ (erow ∉ db.exercises.rows ∧ linkCount db erow.id = 0))
    ∧ (pget ex.name ≠ v → ∀ r ∈ (exerciseStepDb db ex erow day_id).exercises.rows,
        r.name = v → (r ∈ db.exercises.rows ∧ erow.id ≠ r.id)) := by
  obtain ⟨hinv1, hinv2, hinv3⟩ := hinv
  have hq := List.find?_some heq
  rw [Bool.and_eq_true] at hq
  have hnn : (pget ex.name == SqlValue.null) = false := by
    have hb := hq.1
    simpa using hb
  have hename : erow.name = pget ex.name := beq_iff_eq.mp hq.2
  have herowA : erow ∈ (insertOrIgnoreExercise db ex).exercises.rows :=
    List.mem_of_find?_eq_some heq
  obtain ⟨f1, f2, f3, f4⟩ := exerciseStepDb_frame db ex erow day_id
  have hlinks : ∀ i : Nat, linkCount (exerciseStepDb db ex erow day_id) i
      = linkCount db i + (if erow.id = i then 1 else 0) := by
    intro i
    unfold linkCount
    rw [f3, List.countP_append]
    congr 1
    by_cases hi : erow.id = i
    · simp [List.countP_cons, hi]
    · simp [List.countP_cons, hi]
  rcases insertOrIgnore_cases db ex hnn with ⟨⟨e0, he0, he0n⟩, hAeq⟩ | ⟨hnone, hrows, hnext⟩
  · -- the catalog already had a row with this name: the upsert was a no-op
    have hex : (exerciseStepDb db ex erow day_id).exercises = db.exercises := by
      rw [f4, hAeq]
    have herowdb : erow ∈ db.exercises.rows := by
      rw [hAeq] at herowA
      exact herowA
    refine ⟨⟨?_, ?_, ?_⟩, ?_, ?_, ?_, ?_, hename, hlinks, Or.inl herowdb, ?_⟩
    · rw [hex]
      exact hinv1
    · rw [hex]
      exact hinv2
    · intro w hw
      rw [hex]
      rw [f3] at hw
      rcases List.mem_append.mp hw with hw1 | hw2
      · exact hinv3 w hw1
      · simp only [List.mem_singleton] at hw2
        subst hw2
        exact hinv1 erow herowdb
    · rw [hex]
    · have hexr : (exerciseStepDb db ex erow day_id).exercises.rows = db.exercises.rows := by
        rw [hex]
      unfold puCount
      rw [hexr]
      by_cases hx : pget ex.name = v
      · rw [if_pos hx]
        have hge : 0 < db.exercises.rows.countP (fun e => e.name == v) :=
          List.countP_pos_iff.mpr ⟨e0, he0, by simp [he0n, hx]⟩
        have hle : db.exercises.rows.countP (fun e => e.name == v) ≤ 1 := hpu
        omega
      · rw [if_neg hx]
    · intro r hr
      rw [hex]
      exact hr
    · rw [f4, hAeq]
      exact herowdb
    · intro hx r hr hrv
      rw [hex] at hr
      refine ⟨hr, ?_⟩
      intro hid
      have : erow = r := exerciseRow_id_inj db.exercises.rows hinv2 erow herowdb r hr hid
      rw [← this, hename] at hrv
      exact hx hrv
  · -- fresh catalog row inserted with id `db.exercises.nextId`
    have herow_nr : erow = ⟨db.exercises.nextId, pget ex.name, pget ex.category, pget ex.muscle_groups, pget ex.equipment, pget ex.difficulty_level, pget ex.instructions⟩ := by
      rw [hrows] at herowA
      rcases List.mem_append.mp herowA with h1 | h2
      · exact absurd hename (hnone erow h1)
      · simpa using h2
    have hexrows : (exerciseStepDb db ex erow day_id).exercises.rows
        = db.exercises.rows ++ [⟨db.exercises.nextId, pget ex.name, pget ex.category, pget ex.muscle_groups, pget ex.equipment, pget ex.difficulty_level, pget ex.instructions⟩] := by
      rw [f4, hrows]
    have hexnext : (exerciseStepDb db ex erow day_id).exercises.nextId
        = db.exercises.nextId + 1 := by
      rw [f4, hnext]
    refine ⟨⟨?_, ?_, ?_⟩, ?_, ?_, ?_, ?_, hename, hlinks, ?_, ?_⟩
    · intro e he
      rw [hexrows] at he
      rw [hexnext]
      rcases List.mem_append.mp he with h1 | h2
      · exact Nat.lt_succ_of_lt (hinv1 e h1)
      · simp only [List.mem_singleton] at h2
        subst h2
        exact Nat.lt_succ_self _
    · rw [hexrows]
      rw [List.pairwise_append]
      refine ⟨hinv2, List.pairwise_singleton _ _, ?_⟩
      intro a ha b hb
      simp only [List.mem_singleton] at hb
      subst hb
      exact Nat.ne_of_lt (hinv1 a ha)
    · intro w hw
      rw [hexnext]
      rw [f3] at hw
      rcases List.mem_append.mp hw with hw1 | hw2
      · exact Nat.lt_succ_of_lt (hinv3 w hw1)
      · simp only [List.mem_singleton] at hw2
        subst hw2
        show erow.id < db.exercises.nextId + 1
        rw [herow_nr]
        exact Nat.lt_succ_self _
    · rw [hexnext]
      exact Nat.le_succ _
    · unfold puCount
      rw [hexrows, List.countP_append]
      by_cases hx : pget ex.name = v
      · rw [if_pos hx]
        have hz : db.exercises.rows.countP (fun e => e.name == v) = 0 := by
          rw [List.countP_eq_zero]
          intro e he
          simp only [beq_iff_eq]
          rw [← hx]
          exact hnone e he
        unfold puCount at hz
        rw [hz]
        simp [hx]
      · rw [if_neg hx]
        have hz : ([⟨db.exercises.nextId, pget ex.name, pget ex.category, pget ex.muscle_groups, pget ex.equipment, pget ex.difficulty_level, pget ex.instructions⟩] : List ExerciseRow).countP (fun e => e.name == v) = 0 := by
          rw [List.countP_eq_zero]
          intro e he
          simp only [List.mem_singleton] at he
          subst he
          simp [hx]
        rw [hz]
        omega
    · intro r hr
      rw [hexrows]
      exact List.mem_append_left _ hr
    · rw [hexrows, herow_nr]
      exact List.mem_append_right _ (List.mem_singleton.mpr rfl)
    · refine Or.inr ⟨?_, ?_⟩
      · intro hmem
        have hlt := hinv1 erow hmem
        rw [herow_nr] at hlt
        exact Nat.lt_irrefl _ hlt
      · unfold linkCount
        rw [List.countP_eq_zero]
        intro w hw
        simp only [beq_iff_eq]
        intro hww
        have hlt := hinv3 w hw
        rw [hww, herow_nr] at hlt
        exact Nat.lt_irrefl _ hlt
    · intro hx r hr hrv
      rw [hexrows] at hr
      rcases List.mem_append.mp hr with h1 | h2
      · refine ⟨h1, ?_⟩
        intro hid
        have hlt := hinv1 r h1
        rw [← hid, herow_nr] at hlt
        exact Nat.lt_irrefl _ hlt
      · exfalso
        simp only [List.mem_singleton] at h2
        subst h2
        exact hx hrv

theorem exCountIn_cons (v : SqlValue) (ex : ExercisePayload) (rest : List ExercisePayload) :
    exCountIn v (ex :: rest) = exCountIn v rest + (if pget ex.name = v then 1 else 0) := by
  unfold exCountIn
  rw [List.countP_cons]
  by_cases hx : pget ex.name = v
  · simp [hx]
  · simp [hx]

theorem saveExercisesLoop_pu (v : SqlValue) (fails : Nat → Bool) (day_id : Nat) :
    ∀ (es : List ExercisePayload) (db : Db) (k : Nat) (db' : Db) (k' : Nat),
    saveExercisesLoop fails day_id es db k = Except.ok (db', k') →
    CatalogInv db → puCount db v ≤ 1 →
    CatalogInv db'
    ∧ db.exercises.nextId ≤ db'.exercises.nextId
    ∧ puCount db' v = (if exCountIn v es = 0 then puCount db v else 1)
    ∧ (∀ r ∈ db.exercises.rows, r ∈ db'.exercises.rows)
    ∧ (∀ r ∈ db'.exercises.rows, r.name = v →
        linkCount db' r.id
          = (if r ∈ db.exercises.rows then linkCount db r.id else 0) + exCountIn v es) := by
  intro es
  induction es with
  | nil =>
    intro db k db' k' h hinv hpu
    unfold saveExercisesLoop at h
    simp only [Except.ok.injEq, Prod.mk.injEq] at h
    rw [← h.1]
    refine ⟨hinv, Nat.le_refl _, by simp [exCountIn], fun r hr => hr, ?_⟩
    intro r hr _
    have hz : exCountIn v ([] : List ExercisePayload) = 0 := rfl
    rw [hz, if_pos hr]
    omega
  | cons ex rest ih =>
    intro db k db' k' h hinv hpu
    unfold saveExercisesLoop at h
    split at h
    · exact absurd h (by simp)
    · split at h
      · exact absurd h (by simp)
      · rename_i erow heq
        split at h
        · exact absurd h (by simp)
        · obtain ⟨s1, s2, s3, s4, s5, s6, s7, s8, s9⟩ :=
            exerciseStep_pu db ex erow day_id v heq hinv hpu
          have hpu2 : puCount (exerciseStepDb db ex erow day_id) v ≤ 1 := by
            rw [s3]
            split
            · exact Nat.le_refl 1
            · exact hpu
          obtain ⟨i1, i2, i3, i4, i5⟩ := ih _ _ _ _ h s1 hpu2
          refine ⟨i1, Nat.le_trans s2 i2, ?_, fun r hr => i4 r (s4 r hr), ?_⟩
          · by_cases hx : pget ex.name = v
            · have hc : exCountIn v (ex :: rest) ≠ 0 := by
                rw [exCountIn_cons, if_pos hx]
                omega
              rw [i3, s3, if_pos hx, if_neg hc]
              split <;> rfl
            · have hc : exCountIn v (ex :: rest) = exCountIn v rest := by
                rw [exCountIn_cons, if_neg hx]
                omega
              rw [i3, s3, if_neg hx, hc]
          · intro r hr hrv
            have hi5 := i5 r hr hrv
            by_cases hrstep : r ∈ (exerciseStepDb db ex erow day_id).exercises.rows
            · rw [if_pos hrstep] at hi5
              by_cases hx : pget ex.name = v
              · have hstep1 : List.countP (fun e => e.name == v)
                    (exerciseStepDb db ex erow day_id).exercises.rows ≤ 1 := by
                  show puCount (exerciseStepDb db ex erow day_id) v ≤ 1
                  rw [s3, if_pos hx]
                have hrow_eq : r = erow :=
                  countP_le_one_unique (fun e => e.name == v)
                    (exerciseStepDb db ex erow day_id).exercises.rows hstep1
                    r hrstep (beq_iff_eq.mpr hrv) erow s5
                    (beq_iff_eq.mpr (by rw [s6, hx]))
                rcases s8 with herdb | herfresh
                · rw [if_pos (hrow_eq ▸ herdb), hi5, s7 r.id,
                    if_pos (by rw [hrow_eq]), exCountIn_cons, if_pos hx]
                  omega
                · rw [if_neg (hrow_eq ▸ herfresh.1), hi5, s7 r.id,
                    if_pos (by rw [hrow_eq]), exCountIn_cons, if_pos hx]
                  have h0 : linkCount db r.id = 0 := by
                    rw [hrow_eq]
                    exact herfresh.2
                  omega
              · obtain ⟨hrdb, hneid⟩ := s9 hx r hrstep hrv
                rw [if_pos hrdb, hi5, s7 r.id, if_neg hneid, exCountIn_cons, if_neg hx]
                omega
            · rw [if_neg hrstep] at hi5
              have hrdb : r ∉ db.exercises.rows := fun hc => hrstep (s4 r hc)
              rw [if_neg hrdb]
              by_cases hx : pget ex.name = v
              · exfalso
                have herow' : erow ∈ db'.exercises.rows := i4 erow s5
                have hone : List.countP (fun e => e.name == v) db'.exercises.rows ≤ 1 := by
                  show puCount db' v ≤ 1
                  rw [i3, s3, if_pos hx]
                  split <;> exact Nat.le_refl 1
                have hre : r = erow :=
                  countP_le_one_unique (fun e => e.name == v) db'.exercises.rows
                    hone r hr (beq_iff_eq.mpr hrv) erow herow'
                    (beq_iff_eq.mpr (by rw [s6, hx]))
                exact hrstep (hre ▸ s5)
              · rw [hi5, exCountIn_cons, if_neg hx]
                omega

theorem saveDaysLoop_pu (v : SqlValue) (fails : Nat → Bool) (pid : Nat) :
    ∀ (days : List DayPayload) (db : Db) (k : Nat) (db' : Db) (k' : Nat),
    saveDaysLoop fails pid days db k = Except.ok (db', k') →
    CatalogInv db → puCount db v ≤ 1 →
    CatalogInv db'
    ∧ db.exercises.nextId ≤ db'.exercises.nextId
    ∧ puCount db' v
        = (if ((days.map fun dy => exCountIn v (dy.exercises.getD [])).sum) = 0
           then puCount db v else 1)
    ∧ (∀ r ∈ db.exercises.rows, r ∈ db'.exercises.rows)
    ∧ (∀ r ∈ db'.exercises.rows, r.name = v →
        linkCount db' r.id
          = (if r ∈ db.exercises.rows then linkCount db r.id else 0)
            + ((days.map fun dy => exCountIn v (dy.exercises.getD [])).sum)) := by
  intro days
  induction days with
  | nil =>
    intro db k db' k' h hinv hpu
    unfold saveDaysLoop at h
    simp only [Except.ok.injEq, Prod.mk.injEq] at h
    rw [← h.1]
    refine ⟨hinv, Nat.le_refl _, by simp, fun r hr => hr, ?_⟩
    intro r hr _
    simp only [List.map_nil, List.sum_nil]
    rw [if_pos hr]
    omega
  | cons day rest ih =>
    intro db k db' k' h hinv hpu
    unfold saveDaysLoop at h
    split at h
    · exact absurd h (by simp)
    · split at h
      · exact absurd h (by simp)
      · rename_i db2 k2 heq
        obtain ⟨e1, e2, e3, e4, e5⟩ :=
          saveExercisesLoop_pu v fails _ _ _ _ _ _ heq hinv hpu
        have e3' : puCount db2 v
            = (if exCountIn v (day.exercises.getD []) = 0 then puCount db v else 1) := e3
        have e2' : db.exercises.nextId ≤ db2.exercises.nextId := e2
        have e4' : ∀ r ∈ db.exercises.rows, r ∈ db2.exercises.rows := e4
        have hpu2 : puCount db2 v ≤ 1 := by
          rw [e3']
          split
          · exact hpu
          · exact Nat.le_refl 1
        obtain ⟨j1, j2, j3, j4, j5⟩ := ih _ _ _ _ h e1 hpu2
        refine ⟨j1, Nat.le_trans e2' j2, ?_, fun r hr => j4 r (e4' r hr), ?_⟩
        · rw [List.map_cons, List.sum_cons, j3, e3']
          by_cases hc : exCountIn v (day.exercises.getD []) = 0
          · by_cases hS : ((rest.map fun dy => exCountIn v (dy.exercises.getD [])).sum) = 0
            · rw [if_pos hS, if_pos hc, if_pos (by omega)]
            · rw [if_neg hS, if_neg (by omega)]
          · by_cases hS : ((rest.map fun dy => exCountIn v (dy.exercises.getD [])).sum) = 0
            · rw [if_pos hS, if_neg hc, if_neg (by omega)]
            · rw [if_neg hS, if_neg (by omega)]
        · intro r hr hrv
          have hj5 := j5 r hr hrv
          rw [List.map_cons, List.sum_cons]
          by_cases hr2 : r ∈ db2.exercises.rows
          · rw [if_pos hr2] at hj5
            have e5' : linkCount db2 r.id
                = (if r ∈ db.exercises.rows then linkCount db r.id else 0)
                  + exCountIn v (day.exercises.getD []) := e5 r hr2 hrv
            rw [hj5, e5']
            omega
          · rw [if_neg hr2] at hj5
            have hrdb : r ∉ db.exercises.rows := fun hcm => hr2 (e4' r hcm)
            rw [if_neg hrdb]
            by_cases hc : exCountIn v (day.exercises.getD []) = 0
            · rw [hc, hj5]
              omega
            · exfalso
              have hone2 : List.countP (fun e => e.name == v) db2.exercises.rows = 1 := by
                show puCount db2 v = 1
                rw [e3', if_neg hc]
              obtain ⟨e0, he0, hpe0⟩ := List.countP_pos_iff.mp (by omega :
                0 < List.countP (fun e => e.name == v) db2.exercises.rows)
              have he0' : e0 ∈ db'.exercises.rows := j4 e0 he0
              have hone' : List.countP (fun e => e.name == v) db'.exercises.rows ≤ 1 := by
                show puCount db' v ≤ 1
                rw [j3]
                split
                · rw [e3', if_neg hc]
                · exact Nat.le_refl 1
              have hre : r = e0 :=
                countP_le_one_unique (fun e => e.name == v) db'.exercises.rows
                  hone' r hr (beq_iff_eq.mpr hrv) e0 he0' hpe0
              exact hr2 (hre ▸ he0)

/-- C1: saving a workout plan whose two days each contain exactly one
exercise named "Push-ups" (the catalog satisfying its id/uniqueness
invariants, with at most one "Push-ups" row) leaves exactly one catalog
row named "Push-ups" and inserts exactly two `workout_exercises` link rows
referencing that single row's id (its prior link count grows by two; a
freshly created row starts from zero links). -/
theorem claim_C1_pushups_single_catalog_row (db : Db) (uid : Nat)
    (plan : WorkoutPlanPayload) (fails : Nat → Bool) (d1 d2 : DayPayload) (pid : Nat)
    (hdays : plan.days.getD [] = [d1, d2])
    (h1 : exCountIn (SqlValue.textV "Push-ups") (d1.exercises.getD []) = 1)
    (h2 : exCountIn (SqlValue.textV "Push-ups") (d2.exercises.getD []) = 1)
    (hinv : CatalogInv db)
    (hpu : puCount db (SqlValue.textV "Push-ups") ≤ 1)
    (hok : (save_workout_plan db uid plan fails).1 = some pid) :
    puCount (save_workout_plan db uid plan fails).2 (SqlValue.textV "Push-ups") = 1
    ∧ (∀ r ∈ (save_workout_plan db uid plan fails).2.exercises.rows,
        r.name = SqlValue.textV "Push-ups" →
        linkCount (save_workout_plan db uid plan fails).2 r.id
          = (if r ∈ db.exercises.rows then linkCount db r.id else 0) + 2) := by
  by_cases hf : fails 0
  · rw [show (save_workout_plan db uid plan fails).1 = none from by simp [save_workout_plan, hf]] at hok
    cases hok
  · unfold save_workout_plan at hok ⊢
    simp only [hf, Bool.false_eq_true, if_false] at hok ⊢
    split at hok
    · exact absurd hok (by simp)
    · rename_i db2 k2 heq
      rw [hdays] at heq
      obtain ⟨j1, j2, j3, j4, j5⟩ :=
        saveDaysLoop_pu (SqlValue.textV "Push-ups") fails _ _ _ _ _ _ heq hinv hpu
      have hsum : ((([d1, d2] : List DayPayload).map
          fun dy => exCountIn (SqlValue.textV "Push-ups") (dy.exercises.getD [])).sum) = 2 := by
        simp [h1, h2]
      constructor
      · show puCount db2 (SqlValue.textV "Push-ups") = 1
        rw [j3, hsum]
        norm_num
      · show ∀ r ∈ db2.exercises.rows, r.name = SqlValue.textV "Push-ups" →
          linkCount db2 r.id
            = (if r ∈ db.exercises.rows then linkCount db r.id else 0) + 2
        intro r hr hrv
        have j5' : linkCount db2 r.id
            = (if r ∈ db.exercises.rows then linkCount db r.id else 0)
              + ((([d1, d2] : List DayPayload).map
                  fun dy => exCountIn (SqlValue.textV "Push-ups") (dy.exercises.getD [])).sum) :=
          j5 r hr hrv
        rw [hsum] at j5'
        exact j5'

/-- Witness for C1 at concrete inputs: saving the demo two-day plan (each
day containing "Push-ups" once) into the empty database yields exactly one
"Push-ups" catalog row (id 1) and exactly two links to it. -/
theorem claim_C1_witness :
    puCount (save_workout_plan emptyDb 1 demoWorkoutPlan noFail).2
        (SqlValue.textV "Push-ups") = 1
    ∧ linkCount (save_workout_plan emptyDb 1 demoWorkoutPlan noFail).2 1 = 2 := by
  have h := claim_C1_pushups_single_catalog_row emptyDb 1 demoWorkoutPlan noFail
    demoDay1 demoDay2 1 (by decide) (by decide) (by decide)
    ⟨by simp [emptyDb, table0], by simp [emptyDb, table0], by simp [emptyDb, table0]⟩
    (by decide) (by decide)
  refine ⟨h.1, ?_⟩
  have h2 := h.2 demoPushupsRow (by decide) (by decide)
  rw [if_neg (by decide)] at h2
  exact h2

end FitnessDb
